import Mathlib

/-!
Shallow embedding of the invoice-creation orchestration and OAuth token
lifecycle of the hsqbointegration backend (src/services/quickbooksService.js,
src/services/invoiceService.js), together with theorems settling the frozen
claims about it.

Conventions of the embedding:
* JavaScript values that may be `undefined` are `Option` values; JS string
  truthiness (`undefined` and `""` are falsy) and number truthiness
  (`undefined`, `NaN` and `0` are falsy) are made explicit via `jsStrTruthy`
  and `jsNumTruthy`.  A numeric field that would be `NaN` in JS is `none`.
* Timestamps are epoch milliseconds as `Int`; durations in the source that
  are seconds are kept in seconds and scaled by 1000 exactly as the source
  does.
* Every awaited remote interaction (OAuth exchange, QuickBooks API call,
  HubSpot call, document-store write) is modelled by an explicit response
  parameter (the environment oracle) and recorded in a call trace, so that
  "makes no remote call of kind X" is a statement about the trace.
* MongoDB collections are association lists; `updateOne .. {upsert: true}`
  is an insert-or-replace on the key.
-/

namespace HsQbo

/-- Truthiness of an optional JS string: `undefined` and `""` are falsy. -/
def jsStrTruthy : Option String → Bool
  | none => false
  | some s => s != ""

/-- Truthiness of an optional JS number: `undefined`/`NaN` (modelled `none`)
and `0` are falsy. -/
def jsNumTruthy : Option Int → Bool
  | none => false
  | some n => n != 0

/-- JS `a || b` on optional strings: yields `b` whenever `a` is falsy. -/
def jsOrStr (a b : Option String) : Option String :=
  if jsStrTruthy a then a else b

/-- First truthy string of a JS `a || b || c` chain, with a default. -/
def jsOrStrD (a : Option String) (d : String) : String :=
  match a with
  | some s => if s != "" then s else d
  | none => d

/-! ### The `toCamelCase` helper (src/common/helpers.js)

`key.replace(/_([a-z])/g, g => g[1].toUpperCase()).replace(/^([A-Z])/, g => g.toLowerCase())`
applied to every key of an object. -/

/-- Global left-to-right replacement of `_x` (lowercase `x`) by `X`,
modelling the regex `/_([a-z])/g`. -/
def underscoreCamel : List Char → List Char
  | '_' :: c :: rest =>
    if c.isLower then c.toUpper :: underscoreCamel rest
    else '_' :: underscoreCamel (c :: rest)
  | c :: rest => c :: underscoreCamel rest
  | [] => []

/-- Lowercase a leading capital, modelling the regex `/^([A-Z])/`. -/
def lowerFirst : List Char → List Char
  | c :: rest => if c.isUpper then c.toLower :: rest else c :: rest
  | [] => []

/-- Key transformation performed by `toCamelCase` on each object key. -/
def camelKey (s : String) : String :=
  ⟨lowerFirst (underscoreCamel s.data)⟩

/-! ### JS objects with string keys

A JS object is an insertion-ordered association list; assigning to an
existing key overwrites in place, assigning a new key appends. -/

/-- Property read `obj[k]`: `none` models `undefined`. -/
def getKey {α : Type} (m : List (String × α)) (k : String) : Option α :=
  (m.find? (fun p => p.1 == k)).map (·.2)

/-- Property write `obj[k] = v` (overwrite in place or append). -/
def setKey {α : Type} : List (String × α) → String → α → List (String × α)
  | [], k, v => [(k, v)]
  | p :: rest, k, v =>
    if p.1 == k then (k, v) :: rest else p :: setKey rest k v

/-- Map from string keys to string values (a flat JS object). -/
abbrev FieldMap := List (String × String)

/-- Map from string keys to booleans (the validity objects of the source). -/
abbrev BoolMap := List (String × Bool)

/-- Object rebuild performed by `toCamelCase` via `Object.keys(obj).reduce`:
each key is camel-cased; a later key overwrites an earlier collision. -/
def camelizeKeys (m : FieldMap) : FieldMap :=
  m.foldl (fun acc p => setKey acc (camelKey p.1) p.2) []

/-! ### Shared token data model -/

/-- The global token document stored in the token collection
(camel-cased form written by `upsertGlobalToken`).  `createdAt` is epoch
milliseconds, `expiresIn` is the access-token lifetime in seconds. -/
structure TokenDoc where
  key : String
  accessToken : Option String
  refreshToken : Option String
  idToken : Option String
  tokenType : Option String
  realmId : Option String
  createdAt : Option Int
  expiresIn : Option Int
  updatedAt : Int
deriving Repr, DecidableEq

/-- Token object produced by a successful intuit-oauth exchange
(`oauthClient.token`), in its camel-cased persisted form. -/
structure OAuthToken where
  accessTokenVal : String
  refreshTokenVal : String
  idTokenVal : Option String
  tokenTypeVal : Option String
  realmIdVal : Option String
  createdAtMs : Int
  expiresInSec : Int
deriving Repr, DecidableEq

/-- Default key of the single shared token (`QBO_GLOBAL_TOKEN_KEY || "GLOBAL"`). -/
def globalTokenKey : String := "GLOBAL"

/-- The `upsertGlobalToken` payload: the camel-cased token fields plus the
fixed global key and a fresh `updatedAt`, written with `{upsert: true}`.
The modelled documents carry exactly the fields the service reads, all of
which the refresh payload sets, so the `$set` merge is a full replacement
here. -/
def upsertGlobalToken (now : Int) (tok : OAuthToken) : TokenDoc :=
  { key := globalTokenKey
    accessToken := some tok.accessTokenVal
    refreshToken := some tok.refreshTokenVal
    idToken := tok.idTokenVal
    tokenType := tok.tokenTypeVal
    realmId := tok.realmIdVal
    createdAt := some tok.createdAtMs
    expiresIn := some tok.expiresInSec
    updatedAt := now }

/-- Expiry computation of `computeExpiresAt(createdAt, expiresInSec)`:
0 when either field is falsy, otherwise `createdAt + expiresInSec * 1000`. -/
def computeExpiresAt (createdAt expiresInSec : Option Int) : Int :=
  if jsNumTruthy createdAt && jsNumTruthy expiresInSec then
    createdAt.getD 0 + (expiresInSec.getD 0) * 1000
  else 0

/-! ### OAuth errors and the invalid-client detector -/

/-- Error thrown by an OAuth exchange, with the fields
`isInvalidClientError` inspects. -/
structure OAuthErr where
  status : Option Int
  errCode : Option String
  msg : String
deriving Repr, DecidableEq

/-- Substring test used to model a JS regex search. -/
def containsSub (s pat : String) : Bool :=
  (s.splitOn pat).length > 1

/-- Model of the case-insensitive regex `/invalid[_\s-]?client/i` on the
error message (whitespace class modelled by the common whitespace chars). -/
def invalidClientMsg (m : String) : Bool :=
  let l := m.toLower
  containsSub l "invalid_client" || containsSub l "invalid client" ||
  containsSub l "invalid-client" || containsSub l "invalidclient" ||
  containsSub l "invalid\tclient" || containsSub l "invalid\nclient"

/-- Detector `isInvalidClientError`: HTTP 401 together with an
`invalid_client` error code or a matching message. -/
def isInvalidClientError (e : OAuthErr) : Bool :=
  e.status == some 401 &&
    (e.errCode == some "invalid_client" || invalidClientMsg e.msg)

/-- Outcome of one `oauthClient.refreshUsingToken` exchange, supplied by the
environment. -/
abbrev RefreshResp := Except OAuthErr OAuthToken

/-! ### ensureGlobalTokenFresh -/

/-- Result of a run of `ensureGlobalTokenFresh`: the value returned (or the
exception propagated), the token store afterwards, the number of
refresh-token exchanges attempted and the number of credential-cache
resets performed. -/
structure EnsureOutcome where
  result : Except OAuthErr (Option TokenDoc)
  store : Option TokenDoc
  refreshAttempts : Nat
  credsResets : Nat
deriving Repr

/-- Model of `ensureGlobalTokenFresh(db)`.  It reads the global token
document, returns `null` when it is absent or missing token fields, returns
it unchanged while `now < expiresAt - 30_000` (with `expiresAt` truthy),
and otherwise performs a single `refreshUsingToken` exchange (no
invalid-client retry exists on this path), persists the result through
`upsertGlobalToken` and returns the persisted payload.  A failed exchange
propagates. -/
def ensureGlobalTokenFresh (now : Int) (store : Option TokenDoc)
    (resp : RefreshResp) : EnsureOutcome :=
  match store with
  | none => ⟨.ok none, none, 0, 0⟩
  | some doc =>
    if !(jsStrTruthy doc.accessToken && jsStrTruthy doc.refreshToken) then
      ⟨.ok none, store, 0, 0⟩
    else
      let expiresAt := computeExpiresAt doc.createdAt doc.expiresIn
      if expiresAt ≠ 0 ∧ now < expiresAt - 30000 then
        ⟨.ok (some doc), store, 0, 0⟩
      else
        match resp with
        | .error e => ⟨.error e, store, 1, 0⟩
        | .ok tok =>
          let saved := upsertGlobalToken now tok
          ⟨.ok (some saved), some saved, 1, 0⟩

/-- Token triple handed to callers by `getGlobalTokens`. -/
structure GlobalTokens where
  accessToken : Option String
  refreshToken : Option String
  realmId : Option String
deriving Repr, DecidableEq

/-- Model of `getGlobalTokens()`: runs `ensureGlobalTokenFresh` and either
throws (no usable token / failed refresh) or returns the token triple. -/
def getGlobalTokens (now : Int) (store : Option TokenDoc)
    (resp : RefreshResp) : Except String GlobalTokens :=
  match (ensureGlobalTokenFresh now store resp).result with
  | .error e => .error e.msg
  | .ok none =>
    .error "No global QuickBooks token available. Admin must authorize first."
  | .ok (some d) =>
    .ok ⟨jsOrStr d.accessToken none, jsOrStr d.refreshToken none,
      jsOrStr d.realmId none⟩

/-! ### handleRefreshToken and invalidateGlobalToken -/

/-- Result object of `handleRefreshToken` / `invalidateGlobalToken`. -/
structure SvcResult where
  success : Bool
  status : Option Int
  error : Option String
  message : Option String
  mode : Option String
deriving Repr, DecidableEq

/-- Run of `handleRefreshToken`: its result object, the store afterwards,
the number of refresh exchanges attempted and of credential-cache resets. -/
structure RefreshRun where
  res : SvcResult
  store : Option TokenDoc
  attempts : Nat
  credsResets : Nat
deriving Repr, DecidableEq

/-- Catch-all error message of `handleRefreshToken`
(`error.message || "Failed to refresh token"`). -/
def refreshFailMsg (m : String) : String :=
  if m != "" then m else "Failed to refresh token"

/-- Model of `handleRefreshToken(userId)` (the `userId` argument is unused in
the source).  One exchange with the stored refresh token; on an
invalid-client failure the credential cache is reset and the exchange
retried exactly once with the second response; any other failure, or a
second failure of any kind, is caught and surfaced as a 500 result. -/
def handleRefreshToken (now : Int) (store : Option TokenDoc)
    (resp1 resp2 : RefreshResp) : RefreshRun :=
  match store with
  | none =>
    ⟨⟨false, some 404, some "❌ No global refresh token found", none, none⟩,
      none, 0, 0⟩
  | some doc =>
    if !jsStrTruthy doc.refreshToken then
      ⟨⟨false, some 404, some "❌ No global refresh token found", none, none⟩,
        store, 0, 0⟩
    else
      match resp1 with
      | .ok tok =>
        ⟨⟨true, none, none, none, none⟩, some (upsertGlobalToken now tok), 1, 0⟩
      | .error e =>
        if isInvalidClientError e then
          match resp2 with
          | .ok tok =>
            ⟨⟨true, none, none, none, none⟩,
              some (upsertGlobalToken now tok), 2, 1⟩
          | .error e2 =>
            ⟨⟨false, some 500, some (refreshFailMsg e2.msg), none, none⟩,
              store, 2, 1⟩
        else
          ⟨⟨false, some 500, some (refreshFailMsg e.msg), none, none⟩,
            store, 1, 0⟩

/-- Model of `invalidateGlobalToken(mode)`.  With no stored document it
fails 404 and modifies nothing.  Mode `refreshNow` delegates to
`handleRefreshToken`.  Mode `revoke` unsets the access/refresh/id-token and
token-type fields and bumps `updatedAt`.  The default mode `expire` sets
`createdAt` to epoch 0 and `expiresIn` to 0 and bumps `updatedAt`. -/
def invalidateGlobalToken (now : Int) (mode : String)
    (store : Option TokenDoc) (resp1 resp2 : RefreshResp) : RefreshRun :=
  match store with
  | none =>
    ⟨⟨false, some 404, none, some "No global token found", none⟩, none, 0, 0⟩
  | some doc =>
    if mode == "refreshNow" then
      handleRefreshToken now store resp1 resp2
    else if mode == "revoke" then
      ⟨⟨true, none, none, none, some "revoke"⟩,
        some { doc with accessToken := none, refreshToken := none,
                        idToken := none, tokenType := none, updatedAt := now },
        0, 0⟩
    else
      ⟨⟨true, none, none, none, some "expire"⟩,
        some { doc with createdAt := some 0, expiresIn := some 0,
                        updatedAt := now },
        0, 0⟩

/-! ### QuickBooks API calls: errors, responses, call trace -/

/-- Error produced by a node-quickbooks API call, keeping the fields the
service inspects (`err.Fault.Error[0].code/Message/Detail`, `err.message`,
`err.statusCode`). -/
structure QboCallErr where
  faultCode : Option String
  faultMessage : Option String
  faultDetail : Option String
  message : Option String
  statusCode : Option Int
deriving Repr, DecidableEq

/-- A thrown JS error as observed by the workflow-level catch blocks, which
read only `error.message` and `error.statusCode`. -/
structure JsError where
  message : Option String
  statusCode : Option Int
deriving Repr, DecidableEq

/-- A raw QuickBooks error rejected unchanged through a promise. -/
def rawJsError (e : QboCallErr) : JsError := ⟨e.message, e.statusCode⟩

/-- One remote interaction, as recorded in a call trace. -/
inductive CallEvent where
  | hubspotGetData
  | qbFindCustomers
  | qbCreateCustomer
  | dbUpsertCustomer (key : String)
  | qbFindItems
  | qbFindTaxCodes
  | qbFindTerms
  | qbCreateInvoice
  | hubspotUpdateDeal
  | dbInsertInvoice
  | tokenRefresh
  | qbQueryInvoices
deriving Repr, DecidableEq

/-- Catalog item returned by `findItems` (only its `Id` is read). -/
structure QbItem where
  Id : String
deriving Repr, DecidableEq

/-- Tax code returned by `findTaxCodes`. -/
structure QbTaxCode where
  Id : String
  Name : Option String
  Active : Option Bool
deriving Repr, DecidableEq

/-- Payment term returned by `findTerms`. -/
structure QbTerm where
  Id : String
  Name : Option String
  Active : Option Bool
deriving Repr, DecidableEq

/-- Response of the `createInvoice` API call (only `Id` is read). -/
structure InvoiceCreateResp where
  Id : Option String
deriving Repr, DecidableEq

/-- Invoice row returned by the batch verification query (only `Id` and
`Status` are read). -/
structure QbInvoiceInfo where
  Id : String
  Status : Option String
deriving Repr, DecidableEq

/-- Environment oracle: the response each QuickBooks API call would produce
if made.  Customers are flat field maps so that the `toCamelCase` handling
of their keys is modelled exactly. -/
structure QboWorld where
  findCustomersResp : Except QboCallErr (List FieldMap)
  createCustomerResp : Except QboCallErr FieldMap
  findItemsResp : Except QboCallErr (List QbItem)
  findTaxCodesResp : Except QboCallErr (List QbTaxCode)
  findTermsResp : Except QboCallErr (List QbTerm)
  createInvoiceResp : Except QboCallErr InvoiceCreateResp
  queryInvoicesResp : Except QboCallErr (List QbInvoiceInfo)

/-! ### CRM data -/

/-- HubSpot deal properties used by the invoice flow.  `amountRaw` is the
raw `deal.amount` property; `amountNum` models the numeric validation value
of the source (`Number.isFinite(Number(x)) ? parseFloat(x) : NaN`, with a
further `Number.isFinite` check): it is `some q` exactly when that
computation yields the finite number `q`, and `none` on the `NaN` paths
(missing, non-numeric, empty).  `jobCompletionDate` is the parsed
completion date in epoch milliseconds (`none` when absent or unparseable). -/
structure Deal where
  id : Option String
  amountRaw : Option String
  amountNum : Option Rat
  description : Option String
  jobCompletionDate : Option Int
  bypassTaxCode : Bool
  skipTaxCode : Bool
  taxExempt : Bool
deriving Repr, DecidableEq

/-- HubSpot contact properties used by the invoice flow. -/
structure Contact where
  email : Option String
  firstname : Option String
  lastname : Option String
  hs_object_id : Option String
  id : Option String
  contact_id : Option String
deriving Repr, DecidableEq

/-- Environment configuration read by the invoice flow. -/
structure Config where
  bypassTaxCodeEnv : String
  taxCodeIdEnv : Option String
  taxCodeNamesEnv : String
  appUrl : Option String
  taxCalculationEnv : Option String
deriving Repr, DecidableEq

/-- Model of `shouldBypassTaxCode(deal)`: env flag (trimmed, lowercased,
one of true/1/yes) or a deal-level bypass flag. -/
def shouldBypassTaxCode (cfg : Config) (deal : Deal) : Bool :=
  let v := cfg.bypassTaxCodeEnv.trim.toLower
  (v == "true" || v == "1" || v == "yes") ||
    (deal.bypassTaxCode || deal.skipTaxCode || deal.taxExempt)

/-! ### Tax code and term resolution -/

/-- Module-level tax-code cache: cached id and the time it was cached. -/
abbrev TaxCache := Option (String × Int)

/-- The tax-code cache TTL (6 hours in milliseconds). -/
def taxcodeTtl : Int := 21600000

/-- Match of a tax-code name against a name list, where a missing `Name`
matches nothing (JS `list.includes(undefined)` is false). -/
def taxNameIn (names : List String) (t : QbTaxCode) : Bool :=
  match t.Name with
  | some n => names.contains n
  | none => false

/-- Error thrown when no tax code is usable (message abbreviated: the
source message additionally names an example tax-code value). -/
def noTaxCodeErr : QboCallErr :=
  ⟨none, none, none,
    some "No suitable TaxCode found. Set env QUICKBOOKS_TAX_CODE_NAMES to a valid TaxCode name.",
    none⟩

/-- Model of `getPreferredTaxCodeId(qbo)`: warm cache short-circuit, env-id
override, otherwise one `findTaxCodes` call filtered to active codes and
matched against the preferred-name list, then common regional names, then
the first active code; an instructive error when none exists.  Returns the
outcome, the cache afterwards and whether `findTaxCodes` was called. -/
def getPreferredTaxCodeId (cfg : Config) (now : Int) (cache : TaxCache)
    (world : QboWorld) : Except QboCallErr String × TaxCache × Bool :=
  match cache with
  | some (id, at_) =>
    if id != "" && (now - at_ < taxcodeTtl) then (.ok id, cache, false)
    else getPreferredTaxCodeIdFetch cfg now cache world
  | none => getPreferredTaxCodeIdFetch cfg now cache world
where
  getPreferredTaxCodeIdFetch (cfg : Config) (now : Int) (cache : TaxCache)
      (world : QboWorld) : Except QboCallErr String × TaxCache × Bool :=
    match cfg.taxCodeIdEnv with
    | some envId => (.ok envId, some (envId, now), false)
    | none =>
      match world.findTaxCodesResp with
      | .error e => (.error e, cache, true)
      | .ok all =>
        let active := all.filter (fun t => t.Active != some false)
        let preferred :=
          ((cfg.taxCodeNamesEnv.splitOn ",").map String.trim).filter
            (fun s => s != "")
        let foundPref :=
          if preferred.isEmpty then none
          else active.find? (taxNameIn preferred)
        match foundPref with
        | some t => (.ok t.Id, some (t.Id, now), true)
        | none =>
          let cands := ["HST ON", "HST", "GST/HST", "GST", "TAX", "QST", "PST"]
          match active.find? (taxNameIn cands) with
          | some t => (.ok t.Id, some (t.Id, now), true)
          | none =>
            match active with
            | t :: _ => (.ok t.Id, some (t.Id, now), true)
            | [] => (.error noTaxCodeErr, cache, true)

/-- Model of `getTermIdByName(qbo, name)` on the `findTerms` branch (the
branch taken by the node-quickbooks client): first active term with the
given name. -/
def getTermIdByName (world : QboWorld) (name : String) :
    Except QboCallErr (Option String) :=
  match world.findTermsResp with
  | .error e => .error e
  | .ok terms =>
    .ok ((terms.find? (fun t => t.Name == some name && t.Active != some false)).map
      (·.Id))

/-! ### createInvoice (quickbooksService) -/

/-- One JS day in milliseconds. -/
def dayMs : Int := 86400000

/-- Truncation of an epoch-milliseconds timestamp to its UTC midnight,
modelling the `YYYY-MM-DD` formatting of the source. -/
def dayFloor (t : Int) : Int := t - t % dayMs

/-- The `InvalidAmount` error message
(`Invalid deal amount for invoice. Received: "<raw>"`). -/
def invalidAmountMsg (raw : Option String) : String :=
  "Invalid deal amount for invoice. Received: \"" ++ raw.getD "undefined" ++ "\""

/-- Message of the wrapped `createInvoice` rejection, via `parseQboError`:
`info.message || info.detail || "QuickBooks createInvoice failed"` where
`info.message` is `Fault.Error[0].Message || err.message`. -/
def createInvoiceFailMsg (e : QboCallErr) : String :=
  jsOrStrD (jsOrStr (jsOrStr e.faultMessage e.message) e.faultDetail)
    "QuickBooks createInvoice failed"

/-- The amount-validation failure condition of `createInvoice`
(`!Number.isFinite(amount) || amount <= 0`). -/
def dealAmountInvalid (deal : Deal) : Bool :=
  match deal.amountNum with
  | none => true
  | some q => decide (q ≤ 0)

/-- The composed invoice payload (dates as epoch-ms UTC midnights in place
of the formatted `YYYY-MM-DD` strings of the source). -/
structure InvoiceData where
  lineAmount : Rat
  qty : Rat
  unitPrice : Rat
  itemRef : String
  serviceDate : Option Int
  lineTaxCode : Option String
  lineDescription : Option String
  customerRef : String
  billEmail : Option String
  customerMemo : Option String
  salesTermRef : Option String
  dueDate : Option Int
  txnTaxCode : Option String
  globalTaxCalculation : Option String
deriving Repr, DecidableEq

/-- Value returned by a successful `createInvoice`. -/
structure InvoiceOut where
  invoiceNumber : Option String
  invoiceUrl : String
deriving Repr, DecidableEq

/-- Run of `createInvoice` (quickbooksService): outcome, tax cache
afterwards, the payload sent to the create call (when one was composed) and
the trace of QuickBooks calls made. -/
structure CreateInvoiceRun where
  result : Except JsError InvoiceOut
  taxCache : TaxCache
  payload : Option InvoiceData
  calls : List CallEvent

/-- Model of `createInvoice(realmId, accessToken, refreshToken, customerId,
deal, customerEmail)` with tokens already supplied by the caller (the
modelled callers pass the stored tokens after a truthiness check, so the
fallback to `getGlobalTokens` is not taken).  Order of operations follows
the source: item lookup (errors propagate raw), amount validation, optional
tax-code resolution (errors swallowed), service-date derivation, term
lookup (errors swallowed, due-date fallback), then the create call (errors
rejected wrapped, with `parseQboError` detail). -/
def createInvoice (cfg : Config) (now : Int) (taxCache : TaxCache)
    (world : QboWorld) (customerId : String) (deal : Deal)
    (customerEmail : Option String) : CreateInvoiceRun :=
  match world.findItemsResp with
  | .error e => ⟨.error (rawJsError e), taxCache, none, [.qbFindItems]⟩
  | .ok items =>
    match items with
    | [] =>
      ⟨.error ⟨some "No items found in QuickBooks account.", none⟩, taxCache,
        none, [.qbFindItems]⟩
    | item :: _ =>
      match deal.amountNum with
      | none =>
        ⟨.error ⟨some (invalidAmountMsg deal.amountRaw), none⟩, taxCache,
          none, [.qbFindItems]⟩
      | some amount =>
        if amount ≤ 0 then
          ⟨.error ⟨some (invalidAmountMsg deal.amountRaw), none⟩, taxCache,
            none, [.qbFindItems]⟩
        else
          let bypass := shouldBypassTaxCode cfg deal
          let taxStep :=
            if bypass then (none, taxCache, ([] : List CallEvent))
            else
              match getPreferredTaxCodeId cfg now taxCache world with
              | (.ok id, c, called) =>
                (some id, c, if called then [CallEvent.qbFindTaxCodes] else [])
              | (.error _, c, called) =>
                (none, c, if called then [CallEvent.qbFindTaxCodes] else [])
          let taxCodeId := taxStep.1
          let serviceDate := deal.jobCompletionDate.map dayFloor
          let salesTermRefId :=
            match getTermIdByName world "Net 15" with
            | .error _ => none
            | .ok found => found
          let dueDate :=
            if salesTermRefId.isSome then none
            else some (dayFloor (serviceDate.getD now + 15 * dayMs))
          let descr :=
            match deal.description with
            | none => none
            | some raw => if raw.trim == "" then none else some raw.trim
          let billEmail := if jsStrTruthy customerEmail then customerEmail else none
          let data : InvoiceData :=
            { lineAmount := 1 * amount, qty := 1, unitPrice := amount
              itemRef := item.Id, serviceDate := serviceDate
              lineTaxCode := taxCodeId, lineDescription := descr
              customerRef := customerId, billEmail := billEmail
              customerMemo := descr, salesTermRef := salesTermRefId
              dueDate := dueDate, txnTaxCode := taxCodeId
              globalTaxCalculation :=
                if taxCodeId.isSome then
                  some (cfg.taxCalculationEnv.getD "TaxExcluded")
                else none }
          let calls := [CallEvent.qbFindItems] ++ taxStep.2.2 ++
            [CallEvent.qbFindTerms, CallEvent.qbCreateInvoice]
          match world.createInvoiceResp with
          | .error e =>
            ⟨.error ⟨some (createInvoiceFailMsg e), none⟩, taxStep.2.1,
              some data, calls⟩
          | .ok resp =>
            let invoiceUrl :=
              (cfg.appUrl.getD "https://sandbox.qbo.intuit.com/app/invoice") ++
                "?txnId=" ++ resp.Id.getD "undefined"
            ⟨.ok ⟨resp.Id, invoiceUrl⟩, taxStep.2.1, some data, calls⟩

/-! ### getOrCreateCustomer -/

/-- The customer-mapping collection, keyed by the `contactId` field value
the service upserts on (a unique index on `contactId` backs it). -/
abbrev CustStore := List (String × FieldMap)

/-- Run of `getOrCreateCustomer`: outcome (the QuickBooks customer id),
the customer-mapping store afterwards and the trace of calls made. -/
structure GOCRun where
  result : Except JsError String
  store : CustStore
  calls : List CallEvent

/-- Mapping-persistence step of `getOrCreateCustomer`: camel-cases the
customer object, picks the upsert key as
`customerDoc.contactId || customerDoc.Id || customerId` with a fallback to
`contact.contact_id || contact.id`, stores the key back on the document and
upserts by it. -/
def saveCustomerMapping (contact : Contact) (calls : List CallEvent)
    (customerId : Option String) (dataToSave : FieldMap) (store : CustStore) :
    GOCRun :=
  if !jsStrTruthy customerId then
    ⟨.error ⟨some "❌ Failed to find or create customer in QuickBooks", none⟩,
      store, calls⟩
  else
    let cid := customerId.getD ""
    let customerDoc := camelizeKeys dataToSave
    let k1 := jsOrStr (jsOrStr (getKey customerDoc "contactId")
      (getKey customerDoc "Id")) (some cid)
    let k2 := if jsStrTruthy k1 then k1
      else jsOrStr contact.contact_id contact.id
    if !jsStrTruthy k2 then
      ⟨.error ⟨some "Missing contact_id for MongoDB upsert", none⟩, store, calls⟩
    else
      let key := k2.getD ""
      let docFinal := setKey customerDoc "contactId" key
      ⟨.ok cid, setKey store key docFinal, calls ++ [.dbUpsertCustomer key]⟩

/-- Model of `getOrCreateCustomer(realmId, accessToken, contact,
refreshToken)` on the `findCustomers` branch of the client, with tokens
already supplied by the caller.  A `findCustomers` failure with QuickBooks
fault code 3200 triggers a token refresh and rejects a fresh
`Token refreshed, please retry request.` error (carrying no status code);
other failures reject the raw error.  When no customer matches the contact
email, `createCustomer` is called (its failures reject raw).  Either branch
then persists the mapping via `saveCustomerMapping`. -/
def getOrCreateCustomer (world : QboWorld) (contact : Contact)
    (store : CustStore) : GOCRun :=
  match world.findCustomersResp with
  | .error e =>
    if e.faultCode == some "3200" then
      ⟨.error ⟨some "Token refreshed, please retry request.", none⟩, store,
        [.qbFindCustomers, .tokenRefresh]⟩
    else ⟨.error (rawJsError e), store, [.qbFindCustomers]⟩
  | .ok customers =>
    match customers with
    | c :: _ =>
      saveCustomerMapping contact [.qbFindCustomers] (getKey c "Id") c store
    | [] =>
      match world.createCustomerResp with
      | .error e =>
        ⟨.error (rawJsError e), store, [.qbFindCustomers, .qbCreateCustomer]⟩
      | .ok c =>
        saveCustomerMapping contact [.qbFindCustomers, .qbCreateCustomer]
          (getKey c "Id") c store

/-! ### verifyInvoicesInQuickBooks -/

/-- Validity test `inv && (!inv.Status || inv.Status !== "Deleted")` of a
returned invoice row. -/
def statusNotDeleted (st : Option String) : Bool :=
  !(jsStrTruthy st) || !(st == some "Deleted")

/-- Run of `verifyInvoicesInQuickBooks`: the validity object and whether
the batch query was issued. -/
structure VerifyRun where
  result : BoolMap
  queried : Bool
deriving Repr, DecidableEq

/-- Model of `verifyInvoicesInQuickBooks(realmId, accessToken,
refreshToken, invoiceIds)` on the `query` branch of the client, with tokens
supplied.  An empty id list returns an empty object without querying.  On a
query failure every requested id is marked valid (fail-open).  On success,
returned invoices are indexed by id with their not-deleted status, and each
requested id maps to `!!foundInvoices[id]`. -/
def verifyInvoicesInQuickBooks (world : QboWorld) (invoiceIds : List String) :
    VerifyRun :=
  match invoiceIds with
  | [] => ⟨[], false⟩
  | _ =>
    match world.queryInvoicesResp with
    | .error _ =>
      ⟨invoiceIds.foldl (fun acc id => setKey acc id true) [], true⟩
    | .ok invoices =>
      let found := invoices.foldl
        (fun acc inv => setKey acc inv.Id (statusNotDeleted inv.Status)) []
      ⟨invoiceIds.foldl
        (fun acc id => setKey acc id ((getKey found id).getD false)) [], true⟩

/-! ### Invoice records and getInvoicesForDeal -/

/-- Local invoice record (the document persisted by `handleCreateInvoice`;
`mongoId` models the `_id`). -/
structure InvoiceRec where
  mongoId : Nat
  userId : String
  dealId : String
  contactId : String
  customerId : String
  invoiceNumber : Option String
  invoiceId : Option String
  invoiceUrl : Option String
  createdAt : Int
deriving Repr, DecidableEq

/-- Verification key of a record, `inv.invoiceNumber || inv.invoiceId`;
a JS `undefined` used as an object key coerces to the string
`"undefined"`. -/
def invKey (r : InvoiceRec) : String :=
  (jsOrStr r.invoiceNumber r.invoiceId).getD "undefined"

/-- Result object of `getInvoicesForDeal`: the (possibly annotated)
records, and the error envelope.  An annotation of `some b` models the
`isValidInQuickBooks` field attached by the reconciliation branch. -/
structure ListRunResult where
  invoices : List (InvoiceRec × Option Bool)
  error : Option String
  status : Option Int
deriving Repr, DecidableEq

/-- Run of `getInvoicesForDeal`: its result, the invoice collection for the
deal afterwards, the `_id`s deleted, and the trace of calls made. -/
structure ListRun where
  result : ListRunResult
  store : List InvoiceRec
  deletedIds : List Nat
  calls : List CallEvent
deriving Repr, DecidableEq

/-- Model of `getInvoicesForDeal(dealId, userId)`.  `records` is the result
of the `find({dealId})` read; `tokenDoc` the per-user token lookup.  With
no records it returns an empty list.  Missing or incomplete tokens give a
400 result.  Otherwise the invoice keys are batch-verified; when the
validity object is non-empty, records whose key is falsy in it are deleted
by `_id` and the remaining records are returned annotated and filtered by
their validity flag; when it is empty the records are returned
unchanged. -/
def getInvoicesForDeal (records : List InvoiceRec)
    (tokenDoc : Option TokenDoc) (world : QboWorld) : ListRun :=
  match records with
  | [] => ⟨⟨[], none, none⟩, records, [], []⟩
  | _ =>
    match tokenDoc with
    | none =>
      ⟨⟨[], some "❌ QuickBooks not connected", some 400⟩, records, [], []⟩
    | some td =>
      if !(jsStrTruthy td.accessToken && jsStrTruthy td.refreshToken &&
          jsStrTruthy td.realmId) then
        ⟨⟨[], some "❌ Missing QuickBooks tokens", some 400⟩, records, [], []⟩
      else
        let invoiceIds := records.map invKey
        let vr := verifyInvoicesInQuickBooks world invoiceIds
        let calls := if vr.queried then [CallEvent.qbQueryInvoices] else []
        if vr.result ≠ [] then
          let isValid := fun r => (getKey vr.result (invKey r)).getD false
          let deletedIds :=
            (records.filter (fun r => !isValid r)).map (·.mongoId)
          let remaining :=
            records.filter (fun r => !(deletedIds.contains r.mongoId))
          let withValidity :=
            (records.map (fun r => (r, some (isValid r)))).filter
              (fun p => p.2.getD false)
          ⟨⟨withValidity, none, none⟩, remaining, deletedIds, calls⟩
        else
          ⟨⟨records.map (fun r => (r, none)), none, none⟩, records, [], calls⟩

/-! ### handleCreateInvoice (invoiceService) -/

/-- Final result object of `handleCreateInvoice`. -/
structure InvoiceSvcResult where
  invoiceNumber : Option String
  invoiceUrl : Option String
  error : Option String
  status : Option Int
deriving Repr, DecidableEq

/-- Environment oracle of one `handleCreateInvoice` run: the per-user token
lookup, the HubSpot read, the QuickBooks world and the outcomes of the
HubSpot write-back and the local insert. -/
structure WorkflowEnv where
  tokenDoc : Option TokenDoc
  hubspotData : Except JsError (Deal × Contact)
  world : QboWorld
  updateDealResp : Except JsError Unit
  insertInvoiceResp : Except JsError Unit

/-- Run of `handleCreateInvoice`: its result and the customer store,
invoice store, tax cache and call trace afterwards. -/
structure WorkflowRun where
  result : InvoiceSvcResult
  custStore : CustStore
  invStore : List InvoiceRec
  taxCache : TaxCache
  calls : List CallEvent

/-- The catch block of `handleCreateInvoice`: an error carrying
`statusCode === 401` triggers one token refresh and a 503
`Token refreshed, please retry` result; everything else becomes a 500
result with the error message. -/
def wfCatch (e : JsError) (calls : List CallEvent) (cs : CustStore)
    (is : List InvoiceRec) (tc : TaxCache) : WorkflowRun :=
  if e.statusCode == some 401 then
    ⟨⟨none, none, some "Token refreshed, please retry", some 503⟩, cs, is, tc,
      calls ++ [.tokenRefresh]⟩
  else
    ⟨⟨none, none, e.message, some 500⟩, cs, is, tc, calls⟩

/-- Model of `handleCreateInvoice({userId, dealId, contactId})`: token
precondition checks (400 results), HubSpot read, customer resolution,
invoice creation, result completeness check, HubSpot write-back, local
persistence (a fresh `_id` is modelled by the store length), with the catch
block of `wfCatch` around every throwing step. -/
def handleCreateInvoice (cfg : Config) (now : Int)
    (userId dealId contactId : String) (env : WorkflowEnv)
    (custStore : CustStore) (invStore : List InvoiceRec)
    (taxCache : TaxCache) : WorkflowRun :=
  match env.tokenDoc with
  | none =>
    ⟨⟨none, none, some "❌ QuickBooks not connected", some 400⟩, custStore,
      invStore, taxCache, []⟩
  | some td =>
    if !(jsStrTruthy td.accessToken && jsStrTruthy td.refreshToken &&
        jsStrTruthy td.realmId) then
      ⟨⟨none, none, some "❌ Missing QuickBooks tokens", some 400⟩, custStore,
        invStore, taxCache, []⟩
    else
      match env.hubspotData with
      | .error e => wfCatch e [.hubspotGetData] custStore invStore taxCache
      | .ok (deal, contact) =>
        let goc := getOrCreateCustomer env.world
          { contact with id := contact.hs_object_id } custStore
        let calls1 := [CallEvent.hubspotGetData] ++ goc.calls
        match goc.result with
        | .error e => wfCatch e calls1 goc.store invStore taxCache
        | .ok customerId =>
          let ci := createInvoice cfg now taxCache env.world customerId
            { deal with id := some dealId } none
          let calls2 := calls1 ++ ci.calls
          match ci.result with
          | .error e => wfCatch e calls2 goc.store invStore ci.taxCache
          | .ok out =>
            if !(jsStrTruthy out.invoiceNumber && (out.invoiceUrl != "")) then
              wfCatch ⟨some "❌ Failed to create invoice in QuickBooks", none⟩
                calls2 goc.store invStore ci.taxCache
            else
              let calls3 := calls2 ++ [CallEvent.hubspotUpdateDeal]
              match env.updateDealResp with
              | .error e => wfCatch e calls3 goc.store invStore ci.taxCache
              | .ok _ =>
                let newRec : InvoiceRec :=
                  ⟨invStore.length, userId, dealId, contactId, customerId,
                    out.invoiceNumber, out.invoiceNumber, some out.invoiceUrl,
                    now⟩
                let calls4 := calls3 ++ [CallEvent.dbInsertInvoice]
                match env.insertInvoiceResp with
                | .error e => wfCatch e calls4 goc.store invStore ci.taxCache
                | .ok _ =>
                  ⟨⟨out.invoiceNumber, some out.invoiceUrl, none, none⟩,
                    goc.store, invStore ++ [newRec], ci.taxCache, calls4⟩

/-! ### Helper lemmas on JS-object maps -/

/-- Keys of a JS object, in insertion order. -/
def keysOf {α : Type} (m : List (String × α)) : List String :=
  m.map Prod.fst

theorem getKey_setKey_self {α : Type} (m : List (String × α)) (k : String)
    (v : α) : getKey (setKey m k v) k = some v := by
  induction m with
  | nil => simp [setKey, getKey]
  | cons p rest ih =>
    by_cases h : (p.1 == k) = true
    · simp [setKey, getKey, h]
    · simp only [setKey, h, if_false, Bool.false_eq_true]
      simpa [getKey, List.find?_cons, h] using ih

theorem getKey_setKey_ne {α : Type} (m : List (String × α)) (k k' : String)
    (v : α) (h : k' ≠ k) : getKey (setKey m k v) k' = getKey m k' := by
  induction m with
  | nil => simp [setKey, getKey, h, Ne.symm h]
  | cons p rest ih =>
    by_cases hp : (p.1 == k) = true
    · have hpk : p.1 = k := by simpa using hp
      simp [setKey, getKey, hp, List.find?_cons, hpk, h,
        show (k == k') = false by simpa using (Ne.symm h)]
    · simp only [setKey, hp, if_false, Bool.false_eq_true]
      by_cases hx : (p.1 == k') = true
      · simp [getKey, List.find?_cons, hx]
      · simpa [getKey, List.find?_cons, hx] using ih

theorem mem_keysOf_setKey {α : Type} (m : List (String × α)) (k x : String)
    (v : α) : x ∈ keysOf (setKey m k v) ↔ x = k ∨ x ∈ keysOf m := by
  induction m with
  | nil => simp [setKey, keysOf]
  | cons p rest ih =>
    by_cases hp : (p.1 == k) = true
    · have hpk : p.1 = k := by simpa using hp
      simp [setKey, keysOf, hp, hpk]
    · simp only [setKey, hp, if_false, Bool.false_eq_true]
      simp only [keysOf, List.map_cons, List.mem_cons] at ih ⊢
      rw [ih]
      tauto

theorem nodup_keysOf_setKey {α : Type} (m : List (String × α)) (k : String)
    (v : α) (h : (keysOf m).Nodup) : (keysOf (setKey m k v)).Nodup := by
  induction m with
  | nil => simp [setKey, keysOf]
  | cons p rest ih =>
    simp only [keysOf, List.map_cons, List.nodup_cons] at h
    by_cases hp : (p.1 == k) = true
    · have hpk : p.1 = k := by simpa using hp
      simp only [setKey, hp, if_true]
      simp only [keysOf, List.map_cons, List.nodup_cons]
      exact ⟨by simpa [hpk] using h.1, h.2⟩
    · have hpk : p.1 ≠ k := by simpa using hp
      simp only [setKey, hp, if_false, Bool.false_eq_true]
      simp only [keysOf, List.map_cons, List.nodup_cons]
      refine ⟨?_, ih h.2⟩
      rw [show (setKey rest k v).map Prod.fst = keysOf (setKey rest k v) from rfl]
      rw [mem_keysOf_setKey]
      rintro (hc | hc)
      · exact hpk hc
      · exact h.1 hc

theorem getKey_foldl_setKey (f : String → Bool) (ids : List String)
    (m : BoolMap) (x : String) :
    getKey (ids.foldl (fun acc id => setKey acc id (f id)) m) x =
      if x ∈ ids then some (f x) else getKey m x := by
  induction ids generalizing m with
  | nil => simp
  | cons id rest ih =>
    simp only [List.foldl_cons]
    rw [ih]
    by_cases hx : x ∈ rest
    · simp [hx]
    · by_cases hxi : x = id
      · subst hxi
        simp [hx, getKey_setKey_self]
      · simp [hx, hxi, getKey_setKey_ne _ _ _ _ hxi]

theorem mem_keysOf_foldl_setKey (f : String → Bool) (ids : List String)
    (m : BoolMap) (x : String) :
    x ∈ keysOf (ids.foldl (fun acc id => setKey acc id (f id)) m) ↔
      x ∈ ids ∨ x ∈ keysOf m := by
  induction ids generalizing m with
  | nil => simp
  | cons id rest ih =>
    simp only [List.foldl_cons, List.mem_cons]
    rw [ih, mem_keysOf_setKey]
    tauto

theorem nodup_keysOf_foldl_setKey (f : String → Bool) (ids : List String)
    (m : BoolMap) (h : (keysOf m).Nodup) :
    (keysOf (ids.foldl (fun acc id => setKey acc id (f id)) m)).Nodup := by
  induction ids generalizing m with
  | nil => exact h
  | cons id rest ih =>
    simp only [List.foldl_cons]
    exact ih _ (nodup_keysOf_setKey _ _ _ h)

theorem getKey_foldl_found_not_mem (invs : List QbInvoiceInfo) (m : BoolMap)
    (x : String) (hx : ∀ inv ∈ invs, inv.Id ≠ x) :
    getKey (invs.foldl
      (fun acc inv => setKey acc inv.Id (statusNotDeleted inv.Status)) m) x =
      getKey m x := by
  induction invs generalizing m with
  | nil => rfl
  | cons inv rest ih =>
    simp only [List.foldl_cons]
    rw [ih _ (fun i hi => hx i (List.mem_cons_of_mem _ hi)),
      getKey_setKey_ne _ _ _ _ (Ne.symm (hx inv (List.mem_cons_self _ _)))]

theorem getKey_foldl_found (invs : List QbInvoiceInfo) (m : BoolMap)
    (x : String) (hnd : (invs.map (·.Id)).Nodup) :
    getKey (invs.foldl
      (fun acc inv => setKey acc inv.Id (statusNotDeleted inv.Status)) m) x =
      match invs.find? (fun inv => inv.Id == x) with
      | some inv => some (statusNotDeleted inv.Status)
      | none => getKey m x := by
  induction invs generalizing m with
  | nil => rfl
  | cons inv rest ih =>
    simp only [List.map_cons, List.nodup_cons] at hnd
    simp only [List.foldl_cons]
    by_cases hx : (inv.Id == x) = true
    · have hix : inv.Id = x := by simpa using hx
      rw [getKey_foldl_found_not_mem]
      · simp [List.find?_cons, hx, hix, getKey_setKey_self]
      · intro i hi hcont
        exact hnd.1 (by rw [hix, ← hcont]; exact List.mem_map_of_mem _ hi)
    · have hix : inv.Id ≠ x := by simpa using hx
      rw [ih _ hnd.2]
      cases hfind : rest.find? (fun i => i.Id == x) with
      | some i => simp [List.find?_cons, hx, hfind]
      | none =>
        simp [List.find?_cons, hx, hfind,
          getKey_setKey_ne _ _ _ _ (Ne.symm hix)]

theorem statusNotDeleted_iff (st : Option String) :
    statusNotDeleted st = true ↔ st ≠ some "Deleted" := by
  cases st with
  | none => simp [statusNotDeleted, jsStrTruthy]
  | some s =>
    by_cases h : s = "Deleted"
    · subst h
      simp [statusNotDeleted, jsStrTruthy]
    · simp [statusNotDeleted, jsStrTruthy, h]

theorem length_filter_split {α : Type} (l : List α) (p : α → Bool) :
    (l.filter p).length + (l.filter (fun a => !p a)).length = l.length := by
  induction l with
  | nil => rfl
  | cons a t ih =>
    by_cases h : p a = true <;> simp [List.filter_cons, h] <;> omega

theorem map_filter_validity {α : Type} (l : List α) (p : α → Bool) :
    (l.map (fun r => (r, some (p r)))).filter (fun q => q.2.getD false) =
      (l.filter p).map (fun r => (r, some true)) := by
  induction l with
  | nil => rfl
  | cons a t ih =>
    by_cases h : p a = true <;>
      simp [List.filter_cons, h, ih]

/-! ## Theorems settling the claims -/

/-- C1: for every stored shared-token state (document present with its
token fields), `ensureGlobalTokenFresh` — the operation behind
`getGlobalTokens` — never returns a token document that is expired under
the 30-second margin (`now >= createdAt + expiresIn*1000 - 30000`),
assuming the refresh exchange issues a token stamped at `now` with a
lifetime above the margin; and when the stored token is expired under that
margin, exactly one refresh-token exchange is performed and the refreshed
token is persisted under the fixed global key as the value returned. -/
theorem tokenFreshnessInvariant (now : Int) (doc : TokenDoc) (tok : OAuthToken)
    (hnow : 0 < now)
    (hacc : jsStrTruthy doc.accessToken = true)
    (href : jsStrTruthy doc.refreshToken = true)
    (htc : tok.createdAtMs = now)
    (htl : 30000 < tok.expiresInSec * 1000) :
    (∀ d, (ensureGlobalTokenFresh now (some doc) (.ok tok)).result = .ok (some d) →
      now < computeExpiresAt d.createdAt d.expiresIn - 30000)
    ∧ (computeExpiresAt doc.createdAt doc.expiresIn - 30000 ≤ now →
        (ensureGlobalTokenFresh now (some doc) (.ok tok)).refreshAttempts = 1 ∧
        (ensureGlobalTokenFresh now (some doc) (.ok tok)).store =
          some (upsertGlobalToken now tok) ∧
        (ensureGlobalTokenFresh now (some doc) (.ok tok)).result =
          .ok (some (upsertGlobalToken now tok)) ∧
        (upsertGlobalToken now tok).key = globalTokenKey) := by
  have hn : now ≠ 0 := by omega
  have he : tok.expiresInSec ≠ 0 := by
    intro h
    rw [h] at htl
    omega
  have hfreshTok :
      now < computeExpiresAt (some tok.createdAtMs) (some tok.expiresInSec) - 30000 := by
    simp [computeExpiresAt, jsNumTruthy, htc, hn, he]
    omega
  by_cases hc : computeExpiresAt doc.createdAt doc.expiresIn ≠ 0 ∧
      now < computeExpiresAt doc.createdAt doc.expiresIn - 30000
  · constructor
    · intro d hd
      simp [ensureGlobalTokenFresh, hacc, href, hc] at hd
      rw [← hd]
      exact hc.2
    · intro hexp
      exact absurd hc.2 (by omega)
  · constructor
    · intro d hd
      simp [ensureGlobalTokenFresh, hacc, href, hc] at hd
      rw [← hd]
      simpa [upsertGlobalToken] using hfreshTok
    · intro _
      refine ⟨?_, ?_, ?_, rfl⟩ <;> simp [ensureGlobalTokenFresh, hacc, href, hc]

/-- C1 witness: the invariant applied to a concrete expired stored token
and a concrete fresh exchange result. -/
theorem tokenFreshnessInvariantWitness :
    (0 : Int) < 1000000
    ∧ jsStrTruthy (some "at0") = true
    ∧ (30000 : Int) < 3600 * 1000
    ∧ ((∀ d, (ensureGlobalTokenFresh 1000000
        (some ⟨"GLOBAL", some "at0", some "rt0", none, none, some "r1", some 1, some 1, 0⟩)
        (.ok ⟨"at1", "rt1", none, none, some "r1", 1000000, 3600⟩)).result = .ok (some d) →
        (1000000 : Int) < computeExpiresAt d.createdAt d.expiresIn - 30000)
      ∧ (computeExpiresAt (some 1) (some 1) - 30000 ≤ 1000000 →
          (ensureGlobalTokenFresh 1000000
            (some ⟨"GLOBAL", some "at0", some "rt0", none, none, some "r1", some 1, some 1, 0⟩)
            (.ok ⟨"at1", "rt1", none, none, some "r1", 1000000, 3600⟩)).refreshAttempts = 1 ∧
          (ensureGlobalTokenFresh 1000000
            (some ⟨"GLOBAL", some "at0", some "rt0", none, none, some "r1", some 1, some 1, 0⟩)
            (.ok ⟨"at1", "rt1", none, none, some "r1", 1000000, 3600⟩)).store =
            some (upsertGlobalToken 1000000 ⟨"at1", "rt1", none, none, some "r1", 1000000, 3600⟩) ∧
          (ensureGlobalTokenFresh 1000000
            (some ⟨"GLOBAL", some "at0", some "rt0", none, none, some "r1", some 1, some 1, 0⟩)
            (.ok ⟨"at1", "rt1", none, none, some "r1", 1000000, 3600⟩)).result =
            .ok (some (upsertGlobalToken 1000000 ⟨"at1", "rt1", none, none, some "r1", 1000000, 3600⟩)) ∧
          (upsertGlobalToken 1000000 ⟨"at1", "rt1", none, none, some "r1", 1000000, 3600⟩).key =
            globalTokenKey)) :=
  ⟨by decide, by decide, by decide,
    tokenFreshnessInvariant 1000000
      ⟨"GLOBAL", some "at0", some "rt0", none, none, some "r1", some 1, some 1, 0⟩
      ⟨"at1", "rt1", none, none, some "r1", 1000000, 3600⟩
      (by decide) (by decide) (by decide) rfl (by decide)⟩

/-- C10: when the stored createdAt or expiresIn is missing or zero the
computed expiry is 0, and `ensureGlobalTokenFresh` on a field-complete
document never takes the return-unchanged branch: it always proceeds to a
refresh-token exchange (one attempt).  `invalidateGlobalToken` in mode
`expire` realises exactly this state (createdAt epoch 0, expiresIn 0), so
the next token access is forced to refresh. -/
theorem zeroExpiryForcesRefresh (now now2 now3 : Int) (doc d : TokenDoc)
    (resp resp2 r1 r2 : RefreshResp)
    (hacc : jsStrTruthy doc.accessToken = true)
    (href : jsStrTruthy doc.refreshToken = true)
    (hz : jsNumTruthy doc.createdAt = false ∨ jsNumTruthy doc.expiresIn = false)
    (hacc2 : jsStrTruthy d.accessToken = true)
    (href2 : jsStrTruthy d.refreshToken = true) :
    computeExpiresAt doc.createdAt doc.expiresIn = 0
    ∧ (ensureGlobalTokenFresh now (some doc) resp).refreshAttempts = 1
    ∧ (invalidateGlobalToken now2 "expire" (some d) r1 r2).store =
        some { d with createdAt := some 0, expiresIn := some 0, updatedAt := now2 }
    ∧ (ensureGlobalTokenFresh now3
        ((invalidateGlobalToken now2 "expire" (some d) r1 r2).store) resp2).refreshAttempts = 1 := by
  have h0 : computeExpiresAt doc.createdAt doc.expiresIn = 0 := by
    rcases hz with hz | hz <;> simp [computeExpiresAt, hz]
  have hstore : (invalidateGlobalToken now2 "expire" (some d) r1 r2).store =
      some { d with createdAt := some 0, expiresIn := some 0, updatedAt := now2 } := by
    simp [invalidateGlobalToken]
  refine ⟨h0, ?_, hstore, ?_⟩
  · cases resp <;> simp [ensureGlobalTokenFresh, hacc, href, h0]
  · rw [hstore]
    cases resp2 <;>
      simp [ensureGlobalTokenFresh, hacc2, href2, computeExpiresAt, jsNumTruthy]

/-- C10 witness: the forced-refresh behaviour at a concrete stored token
with expiresIn 0 and a concrete second document being expired. -/
theorem zeroExpiryForcesRefreshWitness :
    jsStrTruthy (some "at0") = true
    ∧ (jsNumTruthy (some (5 : Int)) = false ∨ jsNumTruthy (some (0 : Int)) = false)
    ∧ (computeExpiresAt (some 5) (some 0) = 0
      ∧ (ensureGlobalTokenFresh 77
          (some ⟨"GLOBAL", some "at0", some "rt0", none, none, some "r1", some 5, some 0, 0⟩)
          (.error ⟨none, none, ""⟩)).refreshAttempts = 1
      ∧ (invalidateGlobalToken 88 "expire"
          (some ⟨"GLOBAL", some "A", some "R", none, none, some "r2", some 9, some 3600, 2⟩)
          (.error ⟨none, none, ""⟩) (.error ⟨none, none, ""⟩)).store =
          some ⟨"GLOBAL", some "A", some "R", none, none, some "r2", some 0, some 0, 88⟩
      ∧ (ensureGlobalTokenFresh 99
          ((invalidateGlobalToken 88 "expire"
            (some ⟨"GLOBAL", some "A", some "R", none, none, some "r2", some 9, some 3600, 2⟩)
            (.error ⟨none, none, ""⟩) (.error ⟨none, none, ""⟩)).store)
          (.error ⟨none, none, ""⟩)).refreshAttempts = 1) :=
  ⟨by decide, by decide,
    zeroExpiryForcesRefresh 77 88 99
      ⟨"GLOBAL", some "at0", some "rt0", none, none, some "r1", some 5, some 0, 0⟩
      ⟨"GLOBAL", some "A", some "R", none, none, some "r2", some 9, some 3600, 2⟩
      (.error ⟨none, none, ""⟩) (.error ⟨none, none, ""⟩)
      (.error ⟨none, none, ""⟩) (.error ⟨none, none, ""⟩)
      (by decide) (by decide) (by decide) (by decide) (by decide)⟩

/-- C5 counterexample: the claim extends the invalid-client
reset-and-retry to every token-refresh path including the one used by
`getValidToken`, but the refresh inside `ensureGlobalTokenFresh` performs
no credential-cache reset and no retry: on a concrete invalid-client
failure it surfaces the error after exactly one exchange attempt and zero
cache resets. -/
theorem invalidClientRetryNotInEnsureCex :
    isInvalidClientError ⟨some 401, some "invalid_client", "invalid_client"⟩ = true
    ∧ (ensureGlobalTokenFresh 1000000
        (some ⟨"GLOBAL", some "at0", some "rt0", none, none, some "r1", some 1, some 1, 0⟩)
        (.error ⟨some 401, some "invalid_client", "invalid_client"⟩)).refreshAttempts = 1
    ∧ (ensureGlobalTokenFresh 1000000
        (some ⟨"GLOBAL", some "at0", some "rt0", none, none, some "r1", some 1, some 1, 0⟩)
        (.error ⟨some 401, some "invalid_client", "invalid_client"⟩)).credsResets = 0
    ∧ (ensureGlobalTokenFresh 1000000
        (some ⟨"GLOBAL", some "at0", some "rt0", none, none, some "r1", some 1, some 1, 0⟩)
        (.error ⟨some 401, some "invalid_client", "invalid_client"⟩)).result =
        .error ⟨some 401, some "invalid_client", "invalid_client"⟩ :=
  ⟨by decide, by decide, by decide, rfl⟩

/-- C5 as amended: the invalid-client reset-and-retry contract holds for
`handleRefreshToken` (the path used by the refresh endpoint, by
`invalidateGlobalToken` mode `refreshNow` and by the expired-token catch of
the workflow) — one cache reset and exactly one retry on a first
invalid-client failure, with a second failure of any kind surfaced as a 500
without further retries, and a first non-invalid-client failure surfaced
as a 500 with no reset and no retry — but not for the exchange inside
`ensureGlobalTokenFresh`, which surfaces every failure immediately. -/
theorem invalidClientRetryOnlyInHandleRefresh (now : Int) (doc : TokenDoc)
    (e : OAuthErr) (resp2 : RefreshResp)
    (href : jsStrTruthy doc.refreshToken = true) :
    (isInvalidClientError e = true →
      (handleRefreshToken now (some doc) (.error e) resp2).credsResets = 1 ∧
      (handleRefreshToken now (some doc) (.error e) resp2).attempts = 2 ∧
      (∀ tok, resp2 = .ok tok →
        (handleRefreshToken now (some doc) (.error e) resp2).res.success = true ∧
        (handleRefreshToken now (some doc) (.error e) resp2).store =
          some (upsertGlobalToken now tok)) ∧
      (∀ e2, resp2 = .error e2 →
        (handleRefreshToken now (some doc) (.error e) resp2).res.success = false ∧
        (handleRefreshToken now (some doc) (.error e) resp2).res.status = some 500))
    ∧ (isInvalidClientError e = false →
        (handleRefreshToken now (some doc) (.error e) resp2).attempts = 1 ∧
        (handleRefreshToken now (some doc) (.error e) resp2).credsResets = 0 ∧
        (handleRefreshToken now (some doc) (.error e) resp2).res.success = false ∧
        (handleRefreshToken now (some doc) (.error e) resp2).res.status = some 500)
    ∧ (ensureGlobalTokenFresh now (some doc) (.error e)).credsResets = 0 := by
  refine ⟨?_, ?_, ?_⟩
  · intro hic
    refine ⟨?_, ?_, ?_, ?_⟩
    · cases resp2 <;> simp [handleRefreshToken, href, hic]
    · cases resp2 <;> simp [handleRefreshToken, href, hic]
    · intro tok h2
      subst h2
      simp [handleRefreshToken, href, hic]
    · intro e2 h2
      subst h2
      simp [handleRefreshToken, href, hic]
  · intro hic
    simp [handleRefreshToken, href, hic]
  · by_cases hacc : jsStrTruthy doc.accessToken = true
    · simp only [ensureGlobalTokenFresh, hacc, href]
      by_cases hc : computeExpiresAt doc.createdAt doc.expiresIn ≠ 0 ∧
          now < computeExpiresAt doc.createdAt doc.expiresIn - 30000 <;>
        simp [hc]
    · have hacc2 : jsStrTruthy doc.accessToken = false := by
        cases h : jsStrTruthy doc.accessToken
        · rfl
        · exact absurd h hacc
      simp [ensureGlobalTokenFresh, hacc2]

/-- C5 amended witness: a concrete first invalid-client failure followed by
a concrete second invalid-client failure, surfaced as a 500 after exactly
one reset and one retry. -/
theorem invalidClientRetryOnlyInHandleRefreshWitness :
    jsStrTruthy (some "rt0") = true
    ∧ ((isInvalidClientError ⟨some 401, some "invalid_client", "invalid_client"⟩ = true →
        (handleRefreshToken 5
          (some ⟨"GLOBAL", some "at0", some "rt0", none, none, some "r1", some 1, some 1, 0⟩)
          (.error ⟨some 401, some "invalid_client", "invalid_client"⟩)
          (.error ⟨some 401, some "invalid_client", "invalid_client"⟩)).credsResets = 1 ∧
        (handleRefreshToken 5
          (some ⟨"GLOBAL", some "at0", some "rt0", none, none, some "r1", some 1, some 1, 0⟩)
          (.error ⟨some 401, some "invalid_client", "invalid_client"⟩)
          (.error ⟨some 401, some "invalid_client", "invalid_client"⟩)).attempts = 2 ∧
        (∀ tok, (.error ⟨some 401, some "invalid_client", "invalid_client"⟩ : RefreshResp) = .ok tok →
          (handleRefreshToken 5
            (some ⟨"GLOBAL", some "at0", some "rt0", none, none, some "r1", some 1, some 1, 0⟩)
            (.error ⟨some 401, some "invalid_client", "invalid_client"⟩)
            (.error ⟨some 401, some "invalid_client", "invalid_client"⟩)).res.success = true ∧
          (handleRefreshToken 5
            (some ⟨"GLOBAL", some "at0", some "rt0", none, none, some "r1", some 1, some 1, 0⟩)
            (.error ⟨some 401, some "invalid_client", "invalid_client"⟩)
            (.error ⟨some 401, some "invalid_client", "invalid_client"⟩)).store =
            some (upsertGlobalToken 5 tok)) ∧
        (∀ e2, (.error ⟨some 401, some "invalid_client", "invalid_client"⟩ : RefreshResp) = .error e2 →
          (handleRefreshToken 5
            (some ⟨"GLOBAL", some "at0", some "rt0", none, none, some "r1", some 1, some 1, 0⟩)
            (.error ⟨some 401, some "invalid_client", "invalid_client"⟩)
            (.error ⟨some 401, some "invalid_client", "invalid_client"⟩)).res.success = false ∧
          (handleRefreshToken 5
            (some ⟨"GLOBAL", some "at0", some "rt0", none, none, some "r1", some 1, some 1, 0⟩)
            (.error ⟨some 401, some "invalid_client", "invalid_client"⟩)
            (.error ⟨some 401, some "invalid_client", "invalid_client"⟩)).res.status = some 500))
      ∧ (isInvalidClientError ⟨some 401, some "invalid_client", "invalid_client"⟩ = false →
          (handleRefreshToken 5
            (some ⟨"GLOBAL", some "at0", some "rt0", none, none, some "r1", some 1, some 1, 0⟩)
            (.error ⟨some 401, some "invalid_client", "invalid_client"⟩)
            (.error ⟨some 401, some "invalid_client", "invalid_client"⟩)).attempts = 1 ∧
          (handleRefreshToken 5
            (some ⟨"GLOBAL", some "at0", some "rt0", none, none, some "r1", some 1, some 1, 0⟩)
            (.error ⟨some 401, some "invalid_client", "invalid_client"⟩)
            (.error ⟨some 401, some "invalid_client", "invalid_client"⟩)).credsResets = 0 ∧
          (handleRefreshToken 5
            (some ⟨"GLOBAL", some "at0", some "rt0", none, none, some "r1", some 1, some 1, 0⟩)
            (.error ⟨some 401, some "invalid_client", "invalid_client"⟩)
            (.error ⟨some 401, some "invalid_client", "invalid_client"⟩)).res.success = false ∧
          (handleRefreshToken 5
            (some ⟨"GLOBAL", some "at0", some "rt0", none, none, some "r1", some 1, some 1, 0⟩)
            (.error ⟨some 401, some "invalid_client", "invalid_client"⟩)
            (.error ⟨some 401, some "invalid_client", "invalid_client"⟩)).res.status = some 500)
      ∧ (ensureGlobalTokenFresh 5
          (some ⟨"GLOBAL", some "at0", some "rt0", none, none, some "r1", some 1, some 1, 0⟩)
          (.error ⟨some 401, some "invalid_client", "invalid_client"⟩)).credsResets = 0) :=
  ⟨by decide,
    invalidClientRetryOnlyInHandleRefresh 5
      ⟨"GLOBAL", some "at0", some "rt0", none, none, some "r1", some 1, some 1, 0⟩
      ⟨some 401, some "invalid_client", "invalid_client"⟩
      (.error ⟨some 401, some "invalid_client", "invalid_client"⟩)
      (by decide)⟩

/-- C8 counterexample: the claim says mode `revoke` removes only the
access/refresh/id-token credential fields, but on a concrete stored
document the `tokenType` field (present as `bearer` before the call) is
also unset by the revoke update. -/
theorem invalidateRevokeTokenTypeCex :
    (invalidateGlobalToken 99 "revoke"
      (some ⟨"GLOBAL", some "A", some "R", some "I", some "bearer", some "realm1", some 5, some 3600, 1⟩)
      (.error ⟨none, none, ""⟩) (.error ⟨none, none, ""⟩)).store =
      some ⟨"GLOBAL", none, none, none, none, some "realm1", some 5, some 3600, 99⟩
    ∧ (⟨"GLOBAL", some "A", some "R", some "I", some "bearer", some "realm1", some 5, some 3600, 1⟩ : TokenDoc).tokenType =
        some "bearer" :=
  ⟨rfl, rfl⟩

/-- C8 as amended: `invalidateGlobalToken` mode `revoke` unsets the
access-token, refresh-token, id-token and token-type fields and bumps the
last-updated timestamp, leaving the document itself with its key, realm id,
createdAt and expiresIn in place; mode `expire` changes only createdAt,
expiresIn and the last-updated timestamp; and with no stored document any
mode returns a 404 failure result and modifies nothing. -/
theorem invalidateGlobalTokenFrame (now : Int) (d : TokenDoc) (mode : String)
    (r1 r2 : RefreshResp) :
    (invalidateGlobalToken now "revoke" (some d) r1 r2).store =
      some { d with accessToken := none, refreshToken := none,
                    idToken := none, tokenType := none, updatedAt := now }
    ∧ (invalidateGlobalToken now "revoke" (some d) r1 r2).res =
        ⟨true, none, none, none, some "revoke"⟩
    ∧ (invalidateGlobalToken now "expire" (some d) r1 r2).store =
        some { d with createdAt := some 0, expiresIn := some 0, updatedAt := now }
    ∧ (invalidateGlobalToken now "expire" (some d) r1 r2).res =
        ⟨true, none, none, none, some "expire"⟩
    ∧ (invalidateGlobalToken now mode none r1 r2).store = none
    ∧ (invalidateGlobalToken now mode none r1 r2).res =
        ⟨false, some 404, none, some "No global token found", none⟩ := by
  refine ⟨?_, ?_, ?_, ?_, ?_, ?_⟩ <;> simp [invalidateGlobalToken]

/-- C9: `verifyInvoicesInQuickBooks` on an empty id list returns an empty
map without querying; on a successful query it returns a map with exactly
one boolean entry per requested id, an id mapping to `true` exactly when
the query returned that invoice with a status other than `Deleted` (ids
absent from the response map to `false`). -/
theorem verifyInvoicesSpec :
    (∀ world : QboWorld, verifyInvoicesInQuickBooks world [] = ⟨[], false⟩)
    ∧ (∀ (world : QboWorld) (invs : List QbInvoiceInfo) (ids : List String)
        (id : String), world.queryInvoicesResp = .ok invs →
        ((invs.map (·.Id)).Nodup) → id ∈ ids →
        ∃ b, getKey (verifyInvoicesInQuickBooks world ids).result id = some b ∧
          (b = true ↔ ∃ inv ∈ invs, inv.Id = id ∧ inv.Status ≠ some "Deleted"))
    ∧ (∀ (world : QboWorld) (invs : List QbInvoiceInfo) (ids : List String),
        world.queryInvoicesResp = .ok invs → ids ≠ [] →
        (verifyInvoicesInQuickBooks world ids).queried = true
        ∧ (keysOf (verifyInvoicesInQuickBooks world ids).result).Nodup
        ∧ ∀ x, (x ∈ keysOf (verifyInvoicesInQuickBooks world ids).result ↔
            x ∈ ids)) := by
  refine ⟨fun world => rfl, ?_, ?_⟩
  · intro world invs ids id hok hnd hmem
    obtain ⟨id0, rest, rfl⟩ : ∃ id0 rest, ids = id0 :: rest := by
      cases ids with
      | nil => simp at hmem
      | cons a t => exact ⟨a, t, rfl⟩
    simp only [verifyInvoicesInQuickBooks, hok]
    rw [getKey_foldl_setKey, if_pos hmem, getKey_foldl_found _ _ _ hnd]
    cases hf : invs.find? (fun inv => inv.Id == id) with
    | some inv =>
      have hmemInv := List.mem_of_find?_eq_some hf
      have hid : inv.Id = id := by simpa using List.find?_some hf
      refine ⟨statusNotDeleted inv.Status, rfl, ?_⟩
      rw [statusNotDeleted_iff]
      constructor
      · intro hst
        exact ⟨inv, hmemInv, hid, hst⟩
      · rintro ⟨inv2, h2mem, h2id, h2st⟩
        have heq : inv2 = inv :=
          List.inj_on_of_nodup_map hnd h2mem hmemInv (by rw [h2id, hid])
        rw [← heq]
        exact h2st
    | none =>
      refine ⟨(getKey ([] : BoolMap) id).getD false, rfl, ?_⟩
      simp only [getKey, List.find?_nil, Option.map_none', Option.getD_none]
      constructor
      · intro hb
        exact absurd hb (by simp)
      · rintro ⟨inv2, h2mem, h2id, h2st⟩
        have := List.find?_eq_none.mp hf inv2 h2mem
        simp [h2id] at this
  · intro world invs ids hok hne
    obtain ⟨id0, rest, rfl⟩ := List.exists_cons_of_ne_nil hne
    simp only [verifyInvoicesInQuickBooks, hok]
    refine ⟨by simp, nodup_keysOf_foldl_setKey _ _ _ (by simp [keysOf]), ?_⟩
    intro x
    rw [mem_keysOf_foldl_setKey]
    simp [keysOf]

/-- C9 witness: the verification map semantics at a concrete three-id
request against a concrete two-invoice response. -/
theorem verifyInvoicesSpecWitness :
    ((⟨.ok [], .ok [], .ok [], .ok [], .ok [], .ok ⟨none⟩,
        .ok [⟨"101", none⟩, ⟨"102", some "Deleted"⟩]⟩ : QboWorld).queryInvoicesResp =
      .ok [⟨"101", none⟩, ⟨"102", some "Deleted"⟩])
    ∧ (([⟨"101", none⟩, ⟨"102", some "Deleted"⟩] : List QbInvoiceInfo).map (·.Id)).Nodup
    ∧ "102" ∈ ["101", "102", "103"]
    ∧ (∃ b, getKey (verifyInvoicesInQuickBooks
        ⟨.ok [], .ok [], .ok [], .ok [], .ok [], .ok ⟨none⟩,
          .ok [⟨"101", none⟩, ⟨"102", some "Deleted"⟩]⟩
        ["101", "102", "103"]).result "102" = some b ∧
        (b = true ↔ ∃ inv ∈ ([⟨"101", none⟩, ⟨"102", some "Deleted"⟩] : List QbInvoiceInfo),
          inv.Id = "102" ∧ inv.Status ≠ some "Deleted"))
    ∧ ((verifyInvoicesInQuickBooks
        ⟨.ok [], .ok [], .ok [], .ok [], .ok [], .ok ⟨none⟩,
          .ok [⟨"101", none⟩, ⟨"102", some "Deleted"⟩]⟩
        ["101", "102", "103"]).queried = true
      ∧ (keysOf (verifyInvoicesInQuickBooks
          ⟨.ok [], .ok [], .ok [], .ok [], .ok [], .ok ⟨none⟩,
            .ok [⟨"101", none⟩, ⟨"102", some "Deleted"⟩]⟩
          ["101", "102", "103"]).result).Nodup
      ∧ ∀ x, (x ∈ keysOf (verifyInvoicesInQuickBooks
          ⟨.ok [], .ok [], .ok [], .ok [], .ok [], .ok ⟨none⟩,
            .ok [⟨"101", none⟩, ⟨"102", some "Deleted"⟩]⟩
          ["101", "102", "103"]).result ↔ x ∈ ["101", "102", "103"])) :=
  ⟨rfl, by decide, by decide,
    verifyInvoicesSpec.2.1 _ _ _ _ rfl (by decide) (by decide),
    verifyInvoicesSpec.2.2 _ _ _ rfl (by decide)⟩

/-- The lookup `quickbooksInvoiceValidity[inv.invoiceNumber || inv.invoiceId]
|| false` by which `getInvoicesForDeal` judges a record. -/
def qbValidity (world : QboWorld) (records : List InvoiceRec)
    (r : InvoiceRec) : Bool :=
  (getKey (verifyInvoicesInQuickBooks world (records.map invKey)).result
    (invKey r)).getD false

theorem verify_result_lookup (world : QboWorld) (ids : List String)
    (hne : ids ≠ []) (id : String) (hid : id ∈ ids) :
    ∃ b, getKey (verifyInvoicesInQuickBooks world ids).result id = some b := by
  obtain ⟨i0, rest, rfl⟩ := List.exists_cons_of_ne_nil hne
  cases hq : world.queryInvoicesResp with
  | error e =>
    simp only [verifyInvoicesInQuickBooks, hq]
    rw [getKey_foldl_setKey, if_pos hid]
    exact ⟨_, rfl⟩
  | ok invs =>
    simp only [verifyInvoicesInQuickBooks, hq]
    rw [getKey_foldl_setKey, if_pos hid]
    exact ⟨_, rfl⟩

theorem verify_result_ne_nil (world : QboWorld) (ids : List String)
    (hne : ids ≠ []) : (verifyInvoicesInQuickBooks world ids).result ≠ [] := by
  obtain ⟨i0, rest, hids⟩ := List.exists_cons_of_ne_nil hne
  obtain ⟨b, hb⟩ := verify_result_lookup world ids hne i0 (by rw [hids]; simp)
  intro h0
  rw [h0] at hb
  simp [getKey] at hb

/-- Characterization of `getInvoicesForDeal` on the reconciliation branch
(records present, tokens complete, non-empty validity object). -/
theorem getInvoicesForDeal_branch (records : List InvoiceRec) (td : TokenDoc)
    (world : QboWorld)
    (hne : records ≠ [])
    (hacc : jsStrTruthy td.accessToken = true)
    (href : jsStrTruthy td.refreshToken = true)
    (hrealm : jsStrTruthy td.realmId = true) :
    getInvoicesForDeal records (some td) world =
      ⟨⟨(records.map (fun r => (r, some (qbValidity world records r)))).filter
          (fun p => p.2.getD false), none, none⟩,
        records.filter (fun r =>
          !(((records.filter (fun r => !qbValidity world records r)).map
            (·.mongoId)).contains r.mongoId)),
        (records.filter (fun r => !qbValidity world records r)).map (·.mongoId),
        if (verifyInvoicesInQuickBooks world (records.map invKey)).queried then
          [CallEvent.qbQueryInvoices] else []⟩ := by
  have hidsne : records.map invKey ≠ [] := by
    cases records with
    | nil => exact absurd rfl hne
    | cons r0 rest => simp
  have hvrne := verify_result_ne_nil world (records.map invKey) hidsne
  cases records with
  | nil => exact absurd rfl hne
  | cons r0 rest =>
    simp only [List.map_cons] at hvrne
    simp only [getInvoicesForDeal, hacc, href, hrealm, Bool.and_self,
      Bool.not_true, qbValidity]
    simp [hvrne]

/-- C3: when the batch-verification call throws, `getInvoicesForDeal`
deletes no local records, leaves the store unchanged and returns every
local record annotated as valid (fail-open). -/
theorem reconcileFailOpen (records : List InvoiceRec) (td : TokenDoc)
    (world : QboWorld) (e : QboCallErr)
    (hne : records ≠ [])
    (hacc : jsStrTruthy td.accessToken = true)
    (href : jsStrTruthy td.refreshToken = true)
    (hrealm : jsStrTruthy td.realmId = true)
    (herr : world.queryInvoicesResp = .error e) :
    (getInvoicesForDeal records (some td) world).deletedIds = []
    ∧ (getInvoicesForDeal records (some td) world).store = records
    ∧ (getInvoicesForDeal records (some td) world).result.invoices =
        records.map (fun r => (r, some true))
    ∧ (getInvoicesForDeal records (some td) world).result.error = none
    ∧ (getInvoicesForDeal records (some td) world).result.status = none := by
  have hval : ∀ r ∈ records, qbValidity world records r = true := by
    intro r hr
    obtain ⟨r0, rest, hrec⟩ := List.exists_cons_of_ne_nil hne
    unfold qbValidity
    rw [hrec]
    simp only [verifyInvoicesInQuickBooks, herr, List.map_cons]
    rw [getKey_foldl_setKey, if_pos]
    · rfl
    · rw [← List.map_cons, ← hrec]
      exact List.mem_map_of_mem _ hr
  have hfilterNil : records.filter (fun r => !qbValidity world records r) = [] := by
    rw [List.filter_eq_nil_iff]
    intro r hr
    simp [hval r hr]
  rw [getInvoicesForDeal_branch records td world hne hacc href hrealm]
  refine ⟨by simp [hfilterNil], ?_, ?_, rfl, rfl⟩
  · rw [hfilterNil]
    simp [List.filter_eq_self]
  · rw [map_filter_validity]
    rw [show records.filter (qbValidity world records) = records from
      List.filter_eq_self.mpr hval]

/-- C3 witness: fail-open at a concrete three-record deal whose
verification query throws. -/
theorem reconcileFailOpenWitness :
    ([⟨1, "U", "D2", "C1", "Q9", some "101", some "101", none, 0⟩,
      ⟨2, "U", "D2", "C1", "Q9", some "102", some "102", none, 0⟩,
      ⟨3, "U", "D2", "C1", "Q9", some "103", some "103", none, 0⟩] :
        List InvoiceRec) ≠ []
    ∧ jsStrTruthy (some "at") = true
    ∧ ((⟨.ok [], .ok [], .ok [], .ok [], .ok [], .ok ⟨none⟩,
        .error ⟨none, none, none, some "network down", none⟩⟩ :
          QboWorld).queryInvoicesResp =
        .error ⟨none, none, none, some "network down", none⟩)
    ∧ ((getInvoicesForDeal
        [⟨1, "U", "D2", "C1", "Q9", some "101", some "101", none, 0⟩,
          ⟨2, "U", "D2", "C1", "Q9", some "102", some "102", none, 0⟩,
          ⟨3, "U", "D2", "C1", "Q9", some "103", some "103", none, 0⟩]
        (some ⟨"U", some "at", some "rt", none, none, some "r1", some 1, some 3600, 0⟩)
        ⟨.ok [], .ok [], .ok [], .ok [], .ok [], .ok ⟨none⟩,
          .error ⟨none, none, none, some "network down", none⟩⟩).deletedIds = []
      ∧ (getInvoicesForDeal
          [⟨1, "U", "D2", "C1", "Q9", some "101", some "101", none, 0⟩,
            ⟨2, "U", "D2", "C1", "Q9", some "102", some "102", none, 0⟩,
            ⟨3, "U", "D2", "C1", "Q9", some "103", some "103", none, 0⟩]
          (some ⟨"U", some "at", some "rt", none, none, some "r1", some 1, some 3600, 0⟩)
          ⟨.ok [], .ok [], .ok [], .ok [], .ok [], .ok ⟨none⟩,
            .error ⟨none, none, none, some "network down", none⟩⟩).store =
          [⟨1, "U", "D2", "C1", "Q9", some "101", some "101", none, 0⟩,
            ⟨2, "U", "D2", "C1", "Q9", some "102", some "102", none, 0⟩,
            ⟨3, "U", "D2", "C1", "Q9", some "103", some "103", none, 0⟩]
      ∧ (getInvoicesForDeal
          [⟨1, "U", "D2", "C1", "Q9", some "101", some "101", none, 0⟩,
            ⟨2, "U", "D2", "C1", "Q9", some "102", some "102", none, 0⟩,
            ⟨3, "U", "D2", "C1", "Q9", some "103", some "103", none, 0⟩]
          (some ⟨"U", some "at", some "rt", none, none, some "r1", some 1, some 3600, 0⟩)
          ⟨.ok [], .ok [], .ok [], .ok [], .ok [], .ok ⟨none⟩,
            .error ⟨none, none, none, some "network down", none⟩⟩).result.invoices =
          ([⟨1, "U", "D2", "C1", "Q9", some "101", some "101", none, 0⟩,
            ⟨2, "U", "D2", "C1", "Q9", some "102", some "102", none, 0⟩,
            ⟨3, "U", "D2", "C1", "Q9", some "103", some "103", none, 0⟩] :
              List InvoiceRec).map (fun r => (r, some true))
      ∧ (getInvoicesForDeal
          [⟨1, "U", "D2", "C1", "Q9", some "101", some "101", none, 0⟩,
            ⟨2, "U", "D2", "C1", "Q9", some "102", some "102", none, 0⟩,
            ⟨3, "U", "D2", "C1", "Q9", some "103", some "103", none, 0⟩]
          (some ⟨"U", some "at", some "rt", none, none, some "r1", some 1, some 3600, 0⟩)
          ⟨.ok [], .ok [], .ok [], .ok [], .ok [], .ok ⟨none⟩,
            .error ⟨none, none, none, some "network down", none⟩⟩).result.error = none
      ∧ (getInvoicesForDeal
          [⟨1, "U", "D2", "C1", "Q9", some "101", some "101", none, 0⟩,
            ⟨2, "U", "D2", "C1", "Q9", some "102", some "102", none, 0⟩,
            ⟨3, "U", "D2", "C1", "Q9", some "103", some "103", none, 0⟩]
          (some ⟨"U", some "at", some "rt", none, none, some "r1", some 1, some 3600, 0⟩)
          ⟨.ok [], .ok [], .ok [], .ok [], .ok [], .ok ⟨none⟩,
            .error ⟨none, none, none, some "network down", none⟩⟩).result.status = none) :=
  ⟨by decide, by decide, rfl,
    reconcileFailOpen _ _ _ _ (by decide) (by decide) (by decide) (by decide) rfl⟩

/-- C4: when the verification map reports exactly M of the N distinct
record keys valid (M < N), exactly the records whose key is reported
invalid (or is absent from the map) are deleted, and the returned list is
exactly the M valid records annotated with their validity flag. -/
theorem reconcileDeletion (records : List InvoiceRec) (td : TokenDoc)
    (world : QboWorld) (invs : List QbInvoiceInfo)
    (hne : records ≠ [])
    (hacc : jsStrTruthy td.accessToken = true)
    (href : jsStrTruthy td.refreshToken = true)
    (hrealm : jsStrTruthy td.realmId = true)
    (_hok : world.queryInvoicesResp = .ok invs)
    (hndid : (records.map (·.mongoId)).Nodup)
    (hM : (records.filter (qbValidity world records)).length < records.length) :
    (getInvoicesForDeal records (some td) world).deletedIds =
      (records.filter (fun r => !qbValidity world records r)).map (·.mongoId)
    ∧ (getInvoicesForDeal records (some td) world).deletedIds.length =
        records.length - (records.filter (qbValidity world records)).length
    ∧ (getInvoicesForDeal records (some td) world).result.invoices =
        (records.filter (qbValidity world records)).map (fun r => (r, some true))
    ∧ (getInvoicesForDeal records (some td) world).result.invoices.length =
        (records.filter (qbValidity world records)).length
    ∧ (getInvoicesForDeal records (some td) world).store =
        records.filter (qbValidity world records) := by
  have hsplit := length_filter_split records (qbValidity world records)
  rw [getInvoicesForDeal_branch records td world hne hacc href hrealm]
  have hstore : records.filter (fun r =>
      !(((records.filter (fun r => !qbValidity world records r)).map
        (·.mongoId)).contains r.mongoId)) =
      records.filter (qbValidity world records) := by
    apply List.filter_congr
    intro r hr
    by_cases hv : qbValidity world records r = true
    · rw [hv, Bool.not_eq_true', Bool.eq_false_iff]
      intro hcont
      rw [List.contains_eq_any_beq] at hcont
      simp only [List.any_eq_true, beq_iff_eq] at hcont
      obtain ⟨mid, hmidmem, hmideq⟩ := hcont
      obtain ⟨r2, hr2mem, hr2id⟩ := List.mem_map.mp hmidmem
      have hr2rec : r2 ∈ records := (List.mem_filter.mp hr2mem).1
      have hr2inv : (!qbValidity world records r2) = true :=
        (List.mem_filter.mp hr2mem).2
      have hrr : r2 = r := List.inj_on_of_nodup_map hndid hr2rec hr
        (by rw [hr2id, hmideq])
      rw [hrr, hv] at hr2inv
      simp at hr2inv
    · have hv2 : qbValidity world records r = false := by
        cases h : qbValidity world records r
        · rfl
        · exact absurd h hv
      rw [hv2, Bool.not_eq_false', List.contains_eq_any_beq]
      simp only [List.any_eq_true, beq_iff_eq]
      refine ⟨r.mongoId, ?_, rfl⟩
      apply List.mem_map_of_mem
      rw [List.mem_filter]
      exact ⟨hr, by rw [hv2]; rfl⟩
  refine ⟨rfl, ?_, ?_, ?_, hstore⟩
  · simp only [List.length_map]
    omega
  · exact map_filter_validity records (qbValidity world records)
  · rw [map_filter_validity]
    simp

/-- C4 witness: three records for a deal, verification reporting 101 and
103 valid and 102 invalid; record 102 is deleted and the two valid records
are returned annotated. -/
theorem reconcileDeletionWitness :
    ([⟨1, "U", "D2", "C1", "Q9", some "101", some "101", none, 0⟩,
      ⟨2, "U", "D2", "C1", "Q9", some "102", some "102", none, 0⟩,
      ⟨3, "U", "D2", "C1", "Q9", some "103", some "103", none, 0⟩] :
        List InvoiceRec) ≠ []
    ∧ (([⟨1, "U", "D2", "C1", "Q9", some "101", some "101", none, 0⟩,
        ⟨2, "U", "D2", "C1", "Q9", some "102", some "102", none, 0⟩,
        ⟨3, "U", "D2", "C1", "Q9", some "103", some "103", none, 0⟩] :
          List InvoiceRec).map (·.mongoId)).Nodup
    ∧ (([⟨1, "U", "D2", "C1", "Q9", some "101", some "101", none, 0⟩,
        ⟨2, "U", "D2", "C1", "Q9", some "102", some "102", none, 0⟩,
        ⟨3, "U", "D2", "C1", "Q9", some "103", some "103", none, 0⟩] :
          List InvoiceRec).filter
        (qbValidity
          ⟨.ok [], .ok [], .ok [], .ok [], .ok [], .ok ⟨none⟩,
            .ok [⟨"101", none⟩, ⟨"103", none⟩]⟩
          [⟨1, "U", "D2", "C1", "Q9", some "101", some "101", none, 0⟩,
            ⟨2, "U", "D2", "C1", "Q9", some "102", some "102", none, 0⟩,
            ⟨3, "U", "D2", "C1", "Q9", some "103", some "103", none, 0⟩])).length <
      ([⟨1, "U", "D2", "C1", "Q9", some "101", some "101", none, 0⟩,
        ⟨2, "U", "D2", "C1", "Q9", some "102", some "102", none, 0⟩,
        ⟨3, "U", "D2", "C1", "Q9", some "103", some "103", none, 0⟩] :
          List InvoiceRec).length
    ∧ ((getInvoicesForDeal
        [⟨1, "U", "D2", "C1", "Q9", some "101", some "101", none, 0⟩,
          ⟨2, "U", "D2", "C1", "Q9", some "102", some "102", none, 0⟩,
          ⟨3, "U", "D2", "C1", "Q9", some "103", some "103", none, 0⟩]
        (some ⟨"U", some "at", some "rt", none, none, some "r1", some 1, some 3600, 0⟩)
        ⟨.ok [], .ok [], .ok [], .ok [], .ok [], .ok ⟨none⟩,
          .ok [⟨"101", none⟩, ⟨"103", none⟩]⟩).deletedIds = [2]
      ∧ (getInvoicesForDeal
          [⟨1, "U", "D2", "C1", "Q9", some "101", some "101", none, 0⟩,
            ⟨2, "U", "D2", "C1", "Q9", some "102", some "102", none, 0⟩,
            ⟨3, "U", "D2", "C1", "Q9", some "103", some "103", none, 0⟩]
          (some ⟨"U", some "at", some "rt", none, none, some "r1", some 1, some 3600, 0⟩)
          ⟨.ok [], .ok [], .ok [], .ok [], .ok [], .ok ⟨none⟩,
            .ok [⟨"101", none⟩, ⟨"103", none⟩]⟩).result.invoices =
          [(⟨1, "U", "D2", "C1", "Q9", some "101", some "101", none, 0⟩, some true),
            (⟨3, "U", "D2", "C1", "Q9", some "103", some "103", none, 0⟩, some true)]
      ∧ (getInvoicesForDeal
          [⟨1, "U", "D2", "C1", "Q9", some "101", some "101", none, 0⟩,
            ⟨2, "U", "D2", "C1", "Q9", some "102", some "102", none, 0⟩,
            ⟨3, "U", "D2", "C1", "Q9", some "103", some "103", none, 0⟩]
          (some ⟨"U", some "at", some "rt", none, none, some "r1", some 1, some 3600, 0⟩)
          ⟨.ok [], .ok [], .ok [], .ok [], .ok [], .ok ⟨none⟩,
            .ok [⟨"101", none⟩, ⟨"103", none⟩]⟩).store =
          [⟨1, "U", "D2", "C1", "Q9", some "101", some "101", none, 0⟩,
            ⟨3, "U", "D2", "C1", "Q9", some "103", some "103", none, 0⟩]) := by
  have h := reconcileDeletion
    [⟨1, "U", "D2", "C1", "Q9", some "101", some "101", none, 0⟩,
      ⟨2, "U", "D2", "C1", "Q9", some "102", some "102", none, 0⟩,
      ⟨3, "U", "D2", "C1", "Q9", some "103", some "103", none, 0⟩]
    ⟨"U", some "at", some "rt", none, none, some "r1", some 1, some 3600, 0⟩
    ⟨.ok [], .ok [], .ok [], .ok [], .ok [], .ok ⟨none⟩,
      .ok [⟨"101", none⟩, ⟨"103", none⟩]⟩
    [⟨"101", none⟩, ⟨"103", none⟩]
    (by decide) (by decide) (by decide) (by decide) rfl (by decide) (by decide)
  refine ⟨by decide, by decide, by decide, ?_, ?_, ?_⟩
  · rw [h.1]
    decide
  · rw [h.2.2.1]
    decide
  · rw [h.2.2.2.2]
    decide

/-! ### Trace lemmas for the workflow claims -/

theorem saveCustomerMapping_calls (contact : Contact)
    (calls0 : List CallEvent) (cid : Option String) (data : FieldMap)
    (store : CustStore) :
    (saveCustomerMapping contact calls0 cid data store).calls = calls0 ∨
    ∃ k, (saveCustomerMapping contact calls0 cid data store).calls =
      calls0 ++ [CallEvent.dbUpsertCustomer k] := by
  unfold saveCustomerMapping
  split
  · exact Or.inl rfl
  · dsimp only
    split <;> split <;> first
      | exact Or.inl rfl
      | exact Or.inr ⟨_, rfl⟩

theorem mem_calls_saveCustomerMapping (contact : Contact)
    (calls0 : List CallEvent) (cid : Option String) (data : FieldMap)
    (store : CustStore) (ev : CallEvent) (h0 : ev ∈ calls0) :
    ev ∈ (saveCustomerMapping contact calls0 cid data store).calls := by
  rcases saveCustomerMapping_calls contact calls0 cid data store with h | ⟨k, h⟩ <;>
    rw [h]
  · exact h0
  · simp only [List.mem_append]
    exact Or.inl h0

theorem qbCreateInvoice_not_mem_saveCustomerMapping (contact : Contact)
    (calls0 : List CallEvent) (cid : Option String) (data : FieldMap)
    (store : CustStore) (h0 : CallEvent.qbCreateInvoice ∉ calls0) :
    CallEvent.qbCreateInvoice ∉ (saveCustomerMapping contact calls0 cid data store).calls := by
  rcases saveCustomerMapping_calls contact calls0 cid data store with h | ⟨k, h⟩ <;>
    rw [h]
  · exact h0
  · simp only [List.mem_append, List.mem_singleton]
    rintro (hc | hc)
    · exact h0 hc
    · exact CallEvent.noConfusion hc

theorem mem_qbFindCustomers_goc (world : QboWorld) (contact : Contact)
    (store : CustStore) :
    CallEvent.qbFindCustomers ∈ (getOrCreateCustomer world contact store).calls := by
  unfold getOrCreateCustomer
  cases world.findCustomersResp with
  | error e =>
    by_cases h32 : (e.faultCode == some "3200") = true <;> simp [h32]
  | ok customers =>
    cases customers with
    | cons c rest => exact mem_calls_saveCustomerMapping _ _ _ _ _ _ (by simp)
    | nil =>
      cases world.createCustomerResp with
      | error e2 => simp
      | ok c => exact mem_calls_saveCustomerMapping _ _ _ _ _ _ (by simp)

theorem qbCreateInvoice_not_mem_goc (world : QboWorld) (contact : Contact)
    (store : CustStore) :
    CallEvent.qbCreateInvoice ∉ (getOrCreateCustomer world contact store).calls := by
  unfold getOrCreateCustomer
  cases world.findCustomersResp with
  | error e =>
    by_cases h32 : (e.faultCode == some "3200") = true <;> simp [h32]
  | ok customers =>
    cases customers with
    | cons c rest =>
      exact qbCreateInvoice_not_mem_saveCustomerMapping _ _ _ _ _ (by simp)
    | nil =>
      cases world.createCustomerResp with
      | error e2 => simp
      | ok c =>
        exact qbCreateInvoice_not_mem_saveCustomerMapping _ _ _ _ _ (by simp)

/-- Characterization of `createInvoice` under an invalid deal amount: the
item lookup has already happened, then the `InvalidAmount` error is thrown
before any tax, term or invoice-creation call. -/
theorem createInvoice_invalid_amount (cfg : Config) (now : Int)
    (tc : TaxCache) (world : QboWorld) (customerId : String) (deal : Deal)
    (email : Option String) (items : List QbItem)
    (hi : world.findItemsResp = .ok items) (hne : items ≠ [])
    (hinv : dealAmountInvalid deal = true) :
    createInvoice cfg now tc world customerId deal email =
      ⟨.error ⟨some (invalidAmountMsg deal.amountRaw), none⟩, tc, none,
        [.qbFindItems]⟩ := by
  obtain ⟨item, rest, rfl⟩ := List.exists_cons_of_ne_nil hne
  simp only [createInvoice, hi]
  cases ham : deal.amountNum with
  | none => rfl
  | some q =>
    have hq : q ≤ 0 := by simpa [dealAmountInvalid, ham] using hinv
    simp [hq]

/-- A contact as the workflow passes it to customer resolution. -/
def sampleContact : Contact :=
  ⟨some "a@b.com", some "Jane", some "Doe", some "C1", none, none⟩

/-- Workflow environment of a run whose deal amount is the non-numeric
string `abc`, connected tokens, no existing customer for the contact email,
and working item/customer-creation calls. -/
def invalidAmountEnv : WorkflowEnv :=
  { tokenDoc := some ⟨"U1", some "at", some "rt", none, none, some "r1",
      some 1, some 3600, 0⟩
    hubspotData := .ok (⟨none, some "abc", none, none, none, false, false, false⟩,
      sampleContact)
    world := ⟨.ok [], .ok [("Id", "Q9"), ("GivenName", "Jane")], .ok [⟨"17"⟩],
      .ok [], .ok [], .ok ⟨some "123"⟩, .ok []⟩
    updateDealResp := .ok ()
    insertInvoiceResp := .ok () }

/-- C2 counterexample: with the deal amount `abc` the workflow does fail
with the `InvalidAmount` message, but it has already made a remote
customer-creation call (and the item lookup) before the amount was
validated — refuting the claim that no customer-creation call is made. -/
theorem amountValidationCustomerCallCex :
    (handleCreateInvoice ⟨"", none, "", none, none⟩ 0 "U1" "D1" "C1"
      invalidAmountEnv [] [] none).result.error =
      some "Invalid deal amount for invoice. Received: \"abc\""
    ∧ (handleCreateInvoice ⟨"", none, "", none, none⟩ 0 "U1" "D1" "C1"
        invalidAmountEnv [] [] none).result.status = some 500
    ∧ CallEvent.qbCreateCustomer ∈ (handleCreateInvoice ⟨"", none, "", none, none⟩
        0 "U1" "D1" "C1" invalidAmountEnv [] [] none).calls
    ∧ CallEvent.dbUpsertCustomer "Q9" ∈ (handleCreateInvoice ⟨"", none, "", none, none⟩
        0 "U1" "D1" "C1" invalidAmountEnv [] [] none).calls :=
  ⟨by decide, by decide, by decide, by decide⟩

/-- C2 as amended: with an invalid deal amount (missing, non-numeric or
not positive) the workflow fails with the `InvalidAmount` message and a
500 result and never reaches the remote invoice-creation call — but only
after the customer-resolution step (which can create a customer and always
queries for one) and the catalog item lookup have already run. -/
theorem amountValidationAmended (cfg : Config) (now : Int)
    (userId dealId contactId : String) (env : WorkflowEnv) (cs : CustStore)
    (is : List InvoiceRec) (tc : TaxCache) (td : TokenDoc) (deal : Deal)
    (contact : Contact) (cid : String) (items : List QbItem)
    (htd : env.tokenDoc = some td)
    (hacc : jsStrTruthy td.accessToken = true)
    (href : jsStrTruthy td.refreshToken = true)
    (hrealm : jsStrTruthy td.realmId = true)
    (hhs : env.hubspotData = .ok (deal, contact))
    (hcust : (getOrCreateCustomer env.world
      { contact with id := contact.hs_object_id } cs).result = .ok cid)
    (hitems : env.world.findItemsResp = .ok items)
    (hine : items ≠ [])
    (hinv : dealAmountInvalid deal = true) :
    (handleCreateInvoice cfg now userId dealId contactId env cs is tc).result.error =
      some (invalidAmountMsg deal.amountRaw)
    ∧ (handleCreateInvoice cfg now userId dealId contactId env cs is tc).result.status =
        some 500
    ∧ CallEvent.qbCreateInvoice ∉
        (handleCreateInvoice cfg now userId dealId contactId env cs is tc).calls
    ∧ CallEvent.qbFindCustomers ∈
        (handleCreateInvoice cfg now userId dealId contactId env cs is tc).calls := by
  have hci := createInvoice_invalid_amount cfg now tc env.world cid
    { deal with id := some dealId } none items hitems hine hinv
  have hgocNoCI := qbCreateInvoice_not_mem_goc env.world
    { contact with id := contact.hs_object_id } cs
  have hgocFC := mem_qbFindCustomers_goc env.world
    { contact with id := contact.hs_object_id } cs
  refine ⟨?_, ?_, ?_, ?_⟩ <;>
    simp [handleCreateInvoice, htd, hacc, href, hrealm, hhs, hcust, hci,
      wfCatch, List.mem_append, hgocNoCI, hgocFC]

/-- C2 amended witness: the amended claim applied to the concrete
invalid-amount environment. -/
theorem amountValidationAmendedWitness :
    invalidAmountEnv.tokenDoc =
      some ⟨"U1", some "at", some "rt", none, none, some "r1", some 1, some 3600, 0⟩
    ∧ (getOrCreateCustomer invalidAmountEnv.world
        { sampleContact with id := sampleContact.hs_object_id } []).result = .ok "Q9"
    ∧ dealAmountInvalid ⟨none, some "abc", none, none, none, false, false, false⟩ = true
    ∧ ((handleCreateInvoice ⟨"", none, "", none, none⟩ 0 "U1" "D1" "C1"
        invalidAmountEnv [] [] none).result.error =
        some (invalidAmountMsg (some "abc"))
      ∧ (handleCreateInvoice ⟨"", none, "", none, none⟩ 0 "U1" "D1" "C1"
          invalidAmountEnv [] [] none).result.status = some 500
      ∧ CallEvent.qbCreateInvoice ∉ (handleCreateInvoice ⟨"", none, "", none, none⟩
          0 "U1" "D1" "C1" invalidAmountEnv [] [] none).calls
      ∧ CallEvent.qbFindCustomers ∈ (handleCreateInvoice ⟨"", none, "", none, none⟩
          0 "U1" "D1" "C1" invalidAmountEnv [] [] none).calls) :=
  ⟨rfl, rfl, by decide,
    amountValidationAmended ⟨"", none, "", none, none⟩ 0 "U1" "D1" "C1"
      invalidAmountEnv [] [] none
      ⟨"U1", some "at", some "rt", none, none, some "r1", some 1, some 3600, 0⟩
      ⟨none, some "abc", none, none, none, false, false, false⟩
      sampleContact "Q9" [⟨"17"⟩]
      rfl (by decide) (by decide) (by decide) rfl rfl rfl
      (by decide) (by decide)⟩

/-- Resolution of the upsert key for a QuickBooks customer object whose
camel-cased form has no truthy `contactId` or `Id` property: the chain
`customerDoc.contactId || customerDoc.Id || customerId` falls through to
the QuickBooks customer id. -/
theorem saveCustomerMapping_qbId (contact : Contact)
    (calls0 : List CallEvent) (c : FieldMap) (cid : String) (store : CustStore)
    (hid : getKey c "Id" = some cid) (hcid : cid ≠ "")
    (h1 : jsStrTruthy (getKey (camelizeKeys c) "contactId") = false)
    (h2 : jsStrTruthy (getKey (camelizeKeys c) "Id") = false) :
    saveCustomerMapping contact calls0 (getKey c "Id") c store =
      ⟨.ok cid, setKey store cid (setKey (camelizeKeys c) "contactId" cid),
        calls0 ++ [.dbUpsertCustomer cid]⟩ := by
  rw [hid]
  have htr : jsStrTruthy (some cid) = true := by simp [jsStrTruthy, hcid]
  simp [saveCustomerMapping, htr, jsOrStr, h1, h2]

/-- Customer-resolution world in which the contact email matches an
existing QuickBooks customer with id `Q9`. -/
def foundCustomerWorld : QboWorld :=
  ⟨.ok [[("Id", "Q9"), ("PrimaryEmailAddr", "a@b.com")]], .ok [], .ok [],
    .ok [], .ok [], .ok ⟨none⟩, .ok []⟩

/-- The contact as the workflow passes it (CRM contact id `C1` in both
`hs_object_id` and `id`). -/
def crmContact : Contact :=
  ⟨some "a@b.com", some "Jane", some "Doe", some "C1", some "C1", none⟩

/-- C6 counterexample: resolving a customer for CRM contact `C1` that
matches QuickBooks customer `Q9` upserts the mapping under key `Q9` (the
accounting-system customer id), not under the CRM contact id `C1` — the
camel-cased customer object has no `contactId` or `Id` property, so the
key chain falls through to the customer id. -/
theorem customerMappingKeyCex :
    (getOrCreateCustomer foundCustomerWorld crmContact []).result = .ok "Q9"
    ∧ keysOf (getOrCreateCustomer foundCustomerWorld crmContact []).store = ["Q9"]
    ∧ crmContact.id = some "C1"
    ∧ CallEvent.dbUpsertCustomer "Q9" ∈
        (getOrCreateCustomer foundCustomerWorld crmContact []).calls
    ∧ CallEvent.dbUpsertCustomer "C1" ∉
        (getOrCreateCustomer foundCustomerWorld crmContact []).calls :=
  ⟨rfl, by decide, by decide, by decide, by decide⟩

/-- C6 as amended: in both branches (customer found by email, customer
newly created) `getOrCreateCustomer` upserts exactly one mapping record,
keyed by the QuickBooks customer id it returns (for QuickBooks customer
objects, whose camel-cased form carries no `contactId` or `Id` property);
upsert semantics keep the mapping keys duplicate-free, so there is at most
one mapping per that key — but the key is the accounting-system customer
id, not the CRM contact id. -/
theorem customerMappingAmended (world : QboWorld) (contact : Contact)
    (store : CustStore) (c : FieldMap) (cid : String)
    (hid : getKey c "Id" = some cid) (hcid : cid ≠ "")
    (h1 : jsStrTruthy (getKey (camelizeKeys c) "contactId") = false)
    (h2 : jsStrTruthy (getKey (camelizeKeys c) "Id") = false) :
    (∀ rest, world.findCustomersResp = .ok (c :: rest) →
      (getOrCreateCustomer world contact store).result = .ok cid
      ∧ (getOrCreateCustomer world contact store).calls =
          [.qbFindCustomers, .dbUpsertCustomer cid]
      ∧ (getOrCreateCustomer world contact store).store =
          setKey store cid (setKey (camelizeKeys c) "contactId" cid)
      ∧ ((keysOf store).Nodup →
          (keysOf (getOrCreateCustomer world contact store).store).Nodup))
    ∧ (world.findCustomersResp = .ok [] → world.createCustomerResp = .ok c →
      (getOrCreateCustomer world contact store).result = .ok cid
      ∧ (getOrCreateCustomer world contact store).calls =
          [.qbFindCustomers, .qbCreateCustomer, .dbUpsertCustomer cid]
      ∧ (getOrCreateCustomer world contact store).store =
          setKey store cid (setKey (camelizeKeys c) "contactId" cid)
      ∧ ((keysOf store).Nodup →
          (keysOf (getOrCreateCustomer world contact store).store).Nodup)) := by
  have hsave := saveCustomerMapping_qbId contact
  constructor
  · intro rest hresp
    have h := hsave [.qbFindCustomers] c cid store hid hcid h1 h2
    simp only [getOrCreateCustomer, hresp, h]
    exact ⟨by trivial, by trivial, by trivial,
      fun hnd => nodup_keysOf_setKey _ _ _ hnd⟩
  · intro hresp hcc
    have h := hsave [.qbFindCustomers, .qbCreateCustomer] c cid store hid hcid h1 h2
    simp only [getOrCreateCustomer, hresp, hcc, h]
    exact ⟨by trivial, by trivial, by trivial,
      fun hnd => nodup_keysOf_setKey _ _ _ hnd⟩

/-- C6 amended witness: both branches at the concrete customer object with
id `Q9`. -/
theorem customerMappingAmendedWitness :
    getKey [("Id", "Q9"), ("PrimaryEmailAddr", "a@b.com")] "Id" = some "Q9"
    ∧ ("Q9" : String) ≠ ""
    ∧ jsStrTruthy (getKey (camelizeKeys [("Id", "Q9"), ("PrimaryEmailAddr", "a@b.com")]) "contactId") = false
    ∧ ((∀ rest, foundCustomerWorld.findCustomersResp =
        .ok ([("Id", "Q9"), ("PrimaryEmailAddr", "a@b.com")] :: rest) →
        (getOrCreateCustomer foundCustomerWorld crmContact []).result = .ok "Q9"
        ∧ (getOrCreateCustomer foundCustomerWorld crmContact []).calls =
            [.qbFindCustomers, .dbUpsertCustomer "Q9"]
        ∧ (getOrCreateCustomer foundCustomerWorld crmContact []).store =
            setKey [] "Q9" (setKey (camelizeKeys [("Id", "Q9"), ("PrimaryEmailAddr", "a@b.com")]) "contactId" "Q9")
        ∧ ((keysOf ([] : CustStore)).Nodup →
            (keysOf (getOrCreateCustomer foundCustomerWorld crmContact []).store).Nodup))
      ∧ (foundCustomerWorld.findCustomersResp = .ok [] →
          foundCustomerWorld.createCustomerResp =
            .ok [("Id", "Q9"), ("PrimaryEmailAddr", "a@b.com")] →
          (getOrCreateCustomer foundCustomerWorld crmContact []).result = .ok "Q9"
          ∧ (getOrCreateCustomer foundCustomerWorld crmContact []).calls =
              [.qbFindCustomers, .qbCreateCustomer, .dbUpsertCustomer "Q9"]
          ∧ (getOrCreateCustomer foundCustomerWorld crmContact []).store =
              setKey [] "Q9" (setKey (camelizeKeys [("Id", "Q9"), ("PrimaryEmailAddr", "a@b.com")]) "contactId" "Q9")
          ∧ ((keysOf ([] : CustStore)).Nodup →
              (keysOf (getOrCreateCustomer foundCustomerWorld crmContact []).store).Nodup))) :=
  ⟨by decide, by decide, by decide,
    customerMappingAmended foundCustomerWorld crmContact []
      [("Id", "Q9"), ("PrimaryEmailAddr", "a@b.com")] "Q9"
      (by decide) (by decide) (by decide) (by decide)⟩

/-- Workflow environment whose customer lookup fails with the QuickBooks
expired-token fault code 3200. -/
def expiredTokenEnv : WorkflowEnv :=
  { tokenDoc := some ⟨"U1", some "at", some "rt", none, none, some "r1",
      some 1, some 3600, 0⟩
    hubspotData := .ok (⟨none, some "250", some 250, none, none, false, false, false⟩,
      sampleContact)
    world := ⟨.error ⟨some "3200", some "AuthenticationFailed", none, none, some 401⟩,
      .ok [], .ok [⟨"17"⟩], .ok [], .ok [], .ok ⟨some "123"⟩, .ok []⟩
    updateDealResp := .ok ()
    insertInvoiceResp := .ok () }

/-- C7 counterexample: an expired-token failure (QuickBooks fault code
3200, HTTP 401) during the customer lookup does trigger exactly one token
refresh, but the workflow returns status 500 (with the retry message),
not the claimed 503: the 3200 handler rejects a fresh error object that
carries no `statusCode`, so the 503 branch of the catch is not taken. -/
theorem authRetryStatusCex :
    (handleCreateInvoice ⟨"", none, "", none, none⟩ 0 "U1" "D1" "C1"
      expiredTokenEnv [] [] none).result.status = some 500
    ∧ (handleCreateInvoice ⟨"", none, "", none, none⟩ 0 "U1" "D1" "C1"
        expiredTokenEnv [] [] none).result.error =
        some "Token refreshed, please retry request."
    ∧ (handleCreateInvoice ⟨"", none, "", none, none⟩ 0 "U1" "D1" "C1"
        expiredTokenEnv [] [] none).calls.count CallEvent.tokenRefresh = 1 :=
  ⟨by decide, by decide, by decide⟩

/-- C7 as amended: an accounting-system failure whose raw error carries
`statusCode` 401 (here: customer creation) triggers exactly one token
refresh and the 503 `Token refreshed, please retry` result, with no
workflow retry; but the expired-token class proper (QuickBooks fault code
3200 on the customer lookup) is wrapped by the lookup helper — which
itself performs the one refresh — into an error without a status code, so
the workflow returns status 500 with the
`Token refreshed, please retry request.` message instead of 503.  In both
cases exactly one refresh happens and each remote call is made at most
once. -/
theorem authRetryAmended (cfg : Config) (now : Int)
    (userId dealId contactId : String) (env : WorkflowEnv) (cs : CustStore)
    (is : List InvoiceRec) (tc : TaxCache) (td : TokenDoc) (deal : Deal)
    (contact : Contact) (e : QboCallErr)
    (htd : env.tokenDoc = some td)
    (hacc : jsStrTruthy td.accessToken = true)
    (href : jsStrTruthy td.refreshToken = true)
    (hrealm : jsStrTruthy td.realmId = true)
    (hhs : env.hubspotData = .ok (deal, contact)) :
    (env.world.findCustomersResp = .ok [] →
      env.world.createCustomerResp = .error e → e.statusCode = some 401 →
      (handleCreateInvoice cfg now userId dealId contactId env cs is tc).result =
        ⟨none, none, some "Token refreshed, please retry", some 503⟩
      ∧ (handleCreateInvoice cfg now userId dealId contactId env cs is tc).calls =
          [.hubspotGetData, .qbFindCustomers, .qbCreateCustomer, .tokenRefresh])
    ∧ (env.world.findCustomersResp = .error e → e.faultCode = some "3200" →
      (handleCreateInvoice cfg now userId dealId contactId env cs is tc).result =
        ⟨none, none, some "Token refreshed, please retry request.", some 500⟩
      ∧ (handleCreateInvoice cfg now userId dealId contactId env cs is tc).calls =
          [.hubspotGetData, .qbFindCustomers, .tokenRefresh]) := by
  constructor
  · intro hfc hcc hsc
    constructor <;>
      simp [handleCreateInvoice, htd, hacc, href, hrealm, hhs,
        getOrCreateCustomer, hfc, hcc, wfCatch, rawJsError, hsc]
  · intro hfc h32
    constructor <;>
      simp [handleCreateInvoice, htd, hacc, href, hrealm, hhs,
        getOrCreateCustomer, hfc, h32, wfCatch]

/-- C7 amended witness: both failure shapes at concrete environments. -/
theorem authRetryAmendedWitness :
    expiredTokenEnv.tokenDoc =
      some ⟨"U1", some "at", some "rt", none, none, some "r1", some 1, some 3600, 0⟩
    ∧ jsStrTruthy (some "at") = true
    ∧ ((expiredTokenEnv.world.findCustomersResp = .ok [] →
        expiredTokenEnv.world.createCustomerResp =
          .error ⟨some "3200", some "AuthenticationFailed", none, none, some 401⟩ →
        (⟨some "3200", some "AuthenticationFailed", none, none, some 401⟩ : QboCallErr).statusCode = some 401 →
        (handleCreateInvoice ⟨"", none, "", none, none⟩ 0 "U1" "D1" "C1"
          expiredTokenEnv [] [] none).result =
          ⟨none, none, some "Token refreshed, please retry", some 503⟩
        ∧ (handleCreateInvoice ⟨"", none, "", none, none⟩ 0 "U1" "D1" "C1"
            expiredTokenEnv [] [] none).calls =
            [.hubspotGetData, .qbFindCustomers, .qbCreateCustomer, .tokenRefresh])
      ∧ (expiredTokenEnv.world.findCustomersResp =
          .error ⟨some "3200", some "AuthenticationFailed", none, none, some 401⟩ →
        (⟨some "3200", some "AuthenticationFailed", none, none, some 401⟩ : QboCallErr).faultCode = some "3200" →
        (handleCreateInvoice ⟨"", none, "", none, none⟩ 0 "U1" "D1" "C1"
          expiredTokenEnv [] [] none).result =
          ⟨none, none, some "Token refreshed, please retry request.", some 500⟩
        ∧ (handleCreateInvoice ⟨"", none, "", none, none⟩ 0 "U1" "D1" "C1"
            expiredTokenEnv [] [] none).calls =
            [.hubspotGetData, .qbFindCustomers, .tokenRefresh])) :=
  ⟨rfl, by decide,
    authRetryAmended ⟨"", none, "", none, none⟩ 0 "U1" "D1" "C1"
      expiredTokenEnv [] [] none
      ⟨"U1", some "at", some "rt", none, none, some "r1", some 1, some 3600, 0⟩
      ⟨none, some "250", some 250, none, none, false, false, false⟩
      sampleContact
      ⟨some "3200", some "AuthenticationFailed", none, none, some 401⟩
      rfl (by decide) (by decide) (by decide) rfl⟩

end HsQbo
